import Mathlib

/-!
# Red X session service (`api/session.js`): registry, operations, client events

A shallow embedding of the session service of `api/session.js`.

* A JavaScript string is a sequence of UTF-16 code units, so `JSString` is a
  list of code units; "character" always means one code unit, which is what
  `String.prototype.length` counts and what a regular expression without the
  `u` flag matches.
* `activeSessions` (a JavaScript `Map`) is an insertion-ordered list of
  key/value entries with the `get` / `set` / `delete` of `Map`.
* A step of the service (`step`) runs a request handler or a listener without
  another callback in between.  What happens while a handler is suspended is
  modelled where a property depends on it: the two-second wait of
  `createSession` (`createSession`) and the two `await`s of
  `requestPairingCode` (`requestPairingCodeInterleaved`), which holds its
  session object across them.
* A session object is identified by the handle of the client it was created
  with: every session object is created together with a new client.
* The external collaborators (the messaging client, the QR encoder, the
  JavaScript engine's error text) are parameters: `Env`, the `reply` of a
  pairing-code request, the result of a logout.
-/

namespace RedXPair

/-! ## JavaScript strings -/

/-- A JavaScript string: its sequence of UTF-16 code units. -/
abbrev JSString := List Nat

/-- The code units of a string literal all of whose characters lie in the
Basic Multilingual Plane (every literal of `session.js` does). -/
def js (s : String) : JSString := s.toList.map Char.toNat

/-- JavaScript truthiness of a value that is `undefined`/`null` (`none`) or a
string: exactly the non-empty strings are truthy. -/
def truthy : Option JSString → Bool
  | some (_ :: _) => true
  | _ => false

/-- The expression `a || b` for a string-or-undefined `a` and a string `b`. -/
def orElse (a : Option JSString) (b : JSString) : JSString :=
  match a with
  | some (u :: rest) => u :: rest
  | _ => b

/-- The expression `a || null` for a string-or-undefined `a`. -/
def orNull (a : Option JSString) : Option JSString :=
  if truthy a then a else none

/-- The character class `[^0-9]`: every code unit other than `0` .. `9`. -/
def isNonDigit (u : Nat) : Bool := !(0x30 ≤ u && u ≤ 0x39)

/-- The call `phoneNumber.replace(/[^0-9]/g, '')`: every code unit matching
`[^0-9]` is replaced by the empty string. -/
def replaceNonDigits (s : JSString) : JSString := s.filter (fun u => !isNonDigit u)

/-- Line terminators, the code units that `.` does not match. -/
def isLineTerminator (u : Nat) : Bool :=
  u == 0x0A || u == 0x0D || u == 0x2028 || u == 0x2029

/-- The longest match of `.{1,4}` starting at the head of `s`: up to four
leading code units none of which is a line terminator (empty: no match). -/
def matchAtHead (s : JSString) : JSString :=
  (s.take 4).takeWhile (fun u => !isLineTerminator u)

/-- All successive matches of `/.{1,4}/g`, scanning left to right: where the
pattern matches, the greedy match is taken and scanning resumes after it;
where it does not (a line terminator), scanning resumes one unit further.
`fuel` bounds the number of scan positions. -/
def matchAll : Nat → JSString → List JSString
  | 0, _ => []
  | _, [] => []
  | fuel + 1, u :: rest =>
    match matchAtHead (u :: rest) with
    | [] => matchAll fuel rest
    | g :: gs => (g :: gs) :: matchAll fuel ((u :: rest).drop (g :: gs).length)

/-- The call `pairingCode.match(/.{1,4}/g)`: the list of all matches, or
`null` (`none`) when there is none. -/
def jsMatch (s : JSString) : Option (List JSString) :=
  match matchAll s.length s with
  | [] => none
  | g :: gs => some (g :: gs)

/-- The call `parts.join(sep)`. -/
def join (parts : List JSString) (sep : JSString) : JSString :=
  sep.intercalate parts

/-! ## Data model -/

/-- One value of `activeSessions`.  `sock` is the handle of the messaging
client owned by the session; `qr` and `pairingCode` are `none` while the
property is `null` or `undefined`.  The opaque `saveCreds` and `creds` are
never read by the service and are left out. -/
structure Session where
  sock : Nat
  qr : Option JSString
  status : JSString
  pairingCode : Option JSString
deriving DecidableEq, Repr

/-- The `Map` `activeSessions`: its entries in insertion order. -/
abbrev Registry := List (JSString × Session)

/-- The call `Map.prototype.get`. -/
def Registry.get : Registry → JSString → Option Session
  | [], _ => none
  | (k, v) :: rest, key => if k = key then some v else Registry.get rest key

/-- The call `Map.prototype.set`: an existing key keeps its place and takes the
new value, a new key is appended.  Assigning to a property of the object a key
maps to is a `set` of the updated object at that key. -/
def Registry.set : Registry → JSString → Session → Registry
  | [], key, v => [(key, v)]
  | (k, w) :: rest, key, v =>
    if k = key then (k, v) :: rest else (k, w) :: Registry.set rest key v

/-- The call `Map.prototype.delete`. -/
def Registry.delete (m : Registry) (key : JSString) : Registry :=
  m.filter (fun e => decide (e.1 ≠ key))

/-- The external collaborators that are fixed for a run. -/
structure Env where
  /-- The encoder `qrcode.toDataURL`. -/
  toDataURL : JSString → JSString
  /-- The constant `DisconnectReason.loggedOut` of the client library. -/
  loggedOut : Nat
  /-- The message of the `TypeError` raised by `null.join(...)`. -/
  nullJoinMessage : JSString

/-- The state of the process: the registry, the messaging clients created so
far (the client with handle `n` is entry `n`; it holds `some sessionId` when a
`connection.update` listener closing over `sessionId` is registered on it, and
`none` when only the `creds.update` listener is), and the session ids of the
pending reconnect timers. -/
structure State where
  activeSessions : Registry
  sockets : List (Option JSString)
  timers : List JSString
deriving DecidableEq, Repr

/-- The state of a freshly started process. -/
def State.init : State := ⟨[], [], []⟩

/-- A call made to the client library. -/
inductive ClientCall where
  | useMultiFileAuthState (sessionId : JSString)
  | makeWASocket (sock : Nat)
  | requestPairingCode (sock : Nat) (number : JSString)
  | logout (sock : Nat)
deriving DecidableEq, Repr

/-- The HTTP response: the status code and the properties of the JSON body
(`none`: the property is absent). -/
structure Response where
  httpStatus : Nat := 200
  success : Bool
  sessionId : Option JSString := none
  status : Option JSString := none
  qr : Option (Option JSString) := none
  hasQR : Option Bool := none
  hasPairingCode : Option Bool := none
  connected : Option Bool := none
  phoneNumber : Option JSString := none
  pairingCode : Option JSString := none
  rawCode : Option JSString := none
  instructions : Option (List JSString) := none
  message : Option JSString := none
  error : Option JSString := none
deriving DecidableEq, Repr

/-- What a request handler does: the state it leaves, the response it sends
and the calls it made to the client library, in order. -/
structure Outcome where
  state : State
  response : Response
  calls : List ClientCall
deriving DecidableEq, Repr

/-- The argument of a `connection.update` notification: `connection`, the
value of `lastDisconnect?.error?.output?.statusCode`, and `qr`. -/
structure Update where
  connection : Option JSString
  statusCode : Option Nat
  qr : Option JSString
deriving DecidableEq, Repr

/-! ## The four operations -/

/-- The synchronous head of `createSession`: the authentication state is
loaded, a client is made, the registry entry is (over)written with a fresh
`initializing` session, and a `connection.update` listener closing over
`sessionId` is registered on the new client. -/
def createSessionBegin (st : State) (sessionId : JSString) : State :=
  let sock := st.sockets.length
  { activeSessions :=
      st.activeSessions.set sessionId
        { sock := sock, qr := none, status := js "initializing", pairingCode := none }
    sockets := st.sockets ++ [some sessionId]
    timers := st.timers }

/-- The tail of `createSession`, after the two-second wait: the entry is read
again and reported. -/
def createSessionRespond (st : State) (sessionId : JSString) : Response :=
  let session := st.activeSessions.get sessionId
  { success := true
    sessionId := some sessionId
    status := some (orElse (session.map (fun s => s.status)) (js "connecting"))
    qr := some (orNull (session.bind (fun s => s.qr)))
    message := some (js "Session created. Use GET /api/session?action=status&sessionId="
      ++ sessionId ++ js " to check status") }

/-- The function `requestPairingCode`, run with nothing else happening at its
`await`s (`requestPairingCodeInterleaved` is the handler with steps in
between).  `phoneNumber` is `none` when the request has none; `reply` is what
the client's `requestPairingCode` does for this call: it returns a code or
throws an error with a message. -/
def requestPairingCode (env : Env) (st : State) (sessionId : JSString)
    (phoneNumber : Option JSString) (reply : Except JSString JSString) : Outcome :=
  if !truthy phoneNumber then
    { state := st
      response := { httpStatus := 400, success := false, error := some (js "Phone number required") }
      calls := [] }
  else
    let cleanNumber := replaceNonDigits (phoneNumber.getD [])
    if cleanNumber.length < 10 then
      { state := st
        response :=
          { httpStatus := 400, success := false
            error := some (js "Invalid phone number. Include country code (e.g., 12345678901)") }
        calls := [] }
    else
      let found : State × Session × List ClientCall :=
        match st.activeSessions.get sessionId with
        | some session => (st, session, [])
        | none =>
          let sock := st.sockets.length
          let session : Session :=
            { sock := sock, qr := none, status := js "initializing", pairingCode := none }
          ({ activeSessions := st.activeSessions.set sessionId session
             sockets := st.sockets ++ [none]
             timers := st.timers },
           session,
           [ClientCall.useMultiFileAuthState sessionId, ClientCall.makeWASocket sock])
      let st1 := found.1
      let session := found.2.1
      let calls := found.2.2 ++ [ClientCall.requestPairingCode session.sock cleanNumber]
      let failure (msg : JSString) : Outcome :=
        { state := st1
          response :=
            { httpStatus := 500, success := false
              error := some (js "Failed to generate pairing code: " ++ msg) }
          calls := calls }
      match reply with
      | Except.error msg => failure msg
      | Except.ok pairingCode =>
        match jsMatch pairingCode with
        | none => failure env.nullJoinMessage
        | some groups =>
          let formattedCode := join groups (js "-")
          { state :=
              { st1 with
                activeSessions :=
                  st1.activeSessions.set sessionId
                    { session with
                      status := js "pairing_code_ready", pairingCode := some pairingCode } }
            response :=
              { success := true
                sessionId := some sessionId
                phoneNumber := some cleanNumber
                pairingCode := some formattedCode
                rawCode := some pairingCode
                instructions := some
                  [ js "1. Open WhatsApp on your phone",
                    js "2. Go to Settings → Linked Devices",
                    js "3. Tap \x27Link a Device\x27",
                    js "4. Select \x27Link with phone number instead\x27",
                    js "5. Enter this code: " ++ formattedCode ]
                message := some (js "Enter this 8-character code in WhatsApp to connect") }
            calls := calls }

/-- The function `getSessionStatus`. -/
def getSessionStatus (st : State) (sessionId : JSString) : Outcome :=
  match st.activeSessions.get sessionId with
  | none =>
    { state := st
      response :=
        { success := false
          sessionId := some sessionId
          status := some (js "not_found")
          message := some (js "Session not found or expired") }
      calls := [] }
  | some session =>
    { state := st
      response :=
        { success := true
          sessionId := some sessionId
          status := some session.status
          hasQR := some (truthy session.qr)
          hasPairingCode := some (truthy session.pairingCode)
          connected := some (decide (session.status = js "connected")) }
      calls := [] }

/-- The function `destroySession`.  `logout` is what the client's `logout`
does when it is called: it returns or throws.  (A client handle is an object,
so `session.sock` is truthy whenever `session` is.) -/
def destroySession (st : State) (sessionId : JSString) (logout : Except JSString Unit) :
    Outcome :=
  let calls : List ClientCall :=
    match st.activeSessions.get sessionId with
    | some session =>
      match logout with
      | Except.ok _ => [ClientCall.logout session.sock]
      | Except.error _ => [ClientCall.logout session.sock]
    | none => []
  { state := { st with activeSessions := st.activeSessions.delete sessionId }
    response :=
      { success := true
        sessionId := some sessionId
        message := some (js "Session destroyed") }
    calls := calls }

/-! ## Client events -/

/-- The block `if (qr) { ... }` of the listener. -/
def onQr (env : Env) (st : State) (sessionId : JSString) (update : Update) : State :=
  if truthy update.qr then
    match st.activeSessions.get sessionId with
    | some session =>
      { st with
        activeSessions :=
          st.activeSessions.set sessionId
            { session with
              qr := some (env.toDataURL (update.qr.getD [])), status := js "qr_ready" } }
    | none => st
  else st

/-- The block `if (connection === 'open') { ... }` of the listener. -/
def onOpen (st : State) (sessionId : JSString) (update : Update) : State :=
  if update.connection = some (js "open") then
    match st.activeSessions.get sessionId with
    | some session =>
      { st with
        activeSessions :=
          st.activeSessions.set sessionId { session with status := js "connected", qr := none } }
    | none => st
  else st

/-- The block `if (connection === 'close') { ... }` of the listener: unless the
reason is "logged out" a reconnect timer is set, otherwise the entry is
deleted. -/
def onClose (env : Env) (st : State) (sessionId : JSString) (update : Update) : State :=
  if update.connection = some (js "close") then
    if update.statusCode ≠ some env.loggedOut then
      { st with timers := st.timers ++ [sessionId] }
    else
      { st with activeSessions := st.activeSessions.delete sessionId }
  else st

/-- The `connection.update` listener that `createSession` registers, for the
`sessionId` it closes over: its three blocks in order. -/
def onConnectionUpdate (env : Env) (st : State) (sessionId : JSString) (update : Update) :
    State :=
  onClose env (onOpen (onQr env st sessionId update) sessionId update) sessionId update

/-- What the environment does to the service between requests: a client
emits `connection.update`, or a reconnect timer set by a close fires. -/
inductive Event where
  | connectionUpdate (sock : Nat) (update : Update)
  | reconnectTimer (sessionId : JSString)
deriving DecidableEq, Repr

/-- Delivery of an event.  A `connection.update` runs the listener registered
on the emitting client, if there is one; a timer that is pending runs
`createSession` again for its session id. -/
def deliver (env : Env) (st : State) : Event → State
  | Event.connectionUpdate sock update =>
    match st.sockets[sock]? with
    | some (some sessionId) => onConnectionUpdate env st sessionId update
    | _ => st
  | Event.reconnectTimer sessionId =>
    if sessionId ∈ st.timers then
      createSessionBegin { st with timers := st.timers.erase sessionId } sessionId
    else st

/-- The function `createSession`: the synchronous head, the events that are
delivered during the two-second wait, and the response. -/
def createSession (env : Env) (st : State) (sessionId : JSString) (during : List Event) :
    Outcome :=
  let st1 := during.foldl (deliver env) (createSessionBegin st sessionId)
  { state := st1
    response := createSessionRespond st1 sessionId
    calls := [ClientCall.useMultiFileAuthState sessionId, ClientCall.makeWASocket st.sockets.length] }

/-- An API request. -/
inductive Call where
  | create (sessionId : JSString)
  | pair (sessionId : JSString) (phoneNumber : Option JSString)
      (reply : Except JSString JSString)
  | status (sessionId : JSString)
  | destroy (sessionId : JSString) (logout : Except JSString Unit)

/-- One step of the service: a request arrives or an event is delivered. -/
inductive Step where
  | api (call : Call)
  | event (e : Event)

/-- The state after a step.  For `create` this is the state its synchronous
head leaves; its response is sent later and changes nothing. -/
def step (env : Env) (st : State) : Step → State
  | Step.api (Call.create sessionId) => createSessionBegin st sessionId
  | Step.api (Call.pair sessionId phoneNumber reply) =>
    (requestPairingCode env st sessionId phoneNumber reply).state
  | Step.api (Call.status sessionId) => (getSessionStatus st sessionId).state
  | Step.api (Call.destroy sessionId logout) => (destroySession st sessionId logout).state
  | Step.event e => deliver env st e

/-- The state after a sequence of steps. -/
def run (env : Env) (st : State) (steps : List Step) : State :=
  steps.foldl (step env) st

/-- Lines 142-158 of `requestPairingCode`: the session of the id is looked up;
if there is none the handler waits for the authentication state (line 146)
while the steps `whileLoading` happen, then makes a client and registers a
fresh session, whatever the registry holds by then.  The result is the state
at the moment the pairing code is requested, the handle that identifies the
session object the handler holds in `session`, and the calls made. -/
def pairSession (env : Env) (st : State) (sessionId : JSString) (whileLoading : List Step) :
    State × Nat × List ClientCall :=
  match st.activeSessions.get sessionId with
  | some session => (st, session.sock, [])
  | none =>
    let st0 := run env st whileLoading
    let sock := st0.sockets.length
    ({ activeSessions :=
         st0.activeSessions.set sessionId
           { sock := sock, qr := none, status := js "initializing", pairingCode := none }
       sockets := st0.sockets ++ [none]
       timers := st0.timers },
     sock,
     [ClientCall.useMultiFileAuthState sessionId, ClientCall.makeWASocket sock])

/-- Lines 168-169 of `requestPairingCode`: `status` and `pairingCode` are
assigned on the session object the handler holds.  The registry shows the
assignment if the id still maps to that object; otherwise the object is no
longer in the registry and the registry is unchanged. -/
def writePairingCode (st : State) (sessionId : JSString) (held : Nat)
    (pairingCode : JSString) : State :=
  match st.activeSessions.get sessionId with
  | some current =>
    if current.sock = held then
      { st with
        activeSessions :=
          st.activeSessions.set sessionId
            { current with
              status := js "pairing_code_ready", pairingCode := some pairingCode } }
    else st
  | none => st

/-- The function `requestPairingCode` with its suspensions: the steps
`whileLoading` happen while it waits for the authentication state (line 146,
only for an id that was not registered at line 142), the steps
`whileRequesting` while it waits for the client's answer `reply` (line 163). -/
def requestPairingCodeInterleaved (env : Env) (st : State) (sessionId : JSString)
    (phoneNumber : Option JSString) (whileLoading whileRequesting : List Step)
    (reply : Except JSString JSString) : Outcome :=
  if !truthy phoneNumber then
    { state := st
      response := { httpStatus := 400, success := false, error := some (js "Phone number required") }
      calls := [] }
  else
    let cleanNumber := replaceNonDigits (phoneNumber.getD [])
    if cleanNumber.length < 10 then
      { state := st
        response :=
          { httpStatus := 400, success := false
            error := some (js "Invalid phone number. Include country code (e.g., 12345678901)") }
        calls := [] }
    else
      let waiting := pairSession env st sessionId whileLoading
      let held := waiting.2.1
      let calls := waiting.2.2 ++ [ClientCall.requestPairingCode held cleanNumber]
      let st2 := run env waiting.1 whileRequesting
      let failure (msg : JSString) : Outcome :=
        { state := st2
          response :=
            { httpStatus := 500, success := false
              error := some (js "Failed to generate pairing code: " ++ msg) }
          calls := calls }
      match reply with
      | Except.error msg => failure msg
      | Except.ok pairingCode =>
        match jsMatch pairingCode with
        | none => failure env.nullJoinMessage
        | some groups =>
          let formattedCode := join groups (js "-")
          { state := writePairingCode st2 sessionId held pairingCode
            response :=
              { success := true
                sessionId := some sessionId
                phoneNumber := some cleanNumber
                pairingCode := some formattedCode
                rawCode := some pairingCode
                instructions := some
                  [ js "1. Open WhatsApp on your phone",
                    js "2. Go to Settings → Linked Devices",
                    js "3. Tap \x27Link a Device\x27",
                    js "4. Select \x27Link with phone number instead\x27",
                    js "5. Enter this code: " ++ formattedCode ]
                message := some (js "Enter this 8-character code in WhatsApp to connect") }
            calls := calls }

/-- The stored status of a session, if it is registered. -/
def statusOf (st : State) (sessionId : JSString) : Option JSString :=
  (st.activeSessions.get sessionId).map (fun s => s.status)

/-- The states the service can be in: those a sequence of steps leads to from
the state of a freshly started process. -/
def Reachable (env : Env) (st : State) : Prop :=
  ∃ steps : List Step, run env State.init steps = st

/-- The session `createSession` and `requestPairingCode` register for a new
client with handle `sock`. -/
def Session.fresh (sock : Nat) : Session :=
  { sock := sock, qr := none, status := js "initializing", pairingCode := none }

/-- What the block `if (qr) { ... }` of the listener does to the session it
finds: the QR image is stored and the status becomes `qr_ready`. -/
def Session.afterQr (env : Env) (update : Update) (session : Session) : Session :=
  if truthy update.qr then
    { session with qr := some (env.toDataURL (update.qr.getD [])), status := js "qr_ready" }
  else session

/-- What the block `if (connection === 'open') { ... }` of the listener does to
the session it finds: the status becomes `connected` and the QR is cleared. -/
def Session.afterOpen (update : Update) (session : Session) : Session :=
  if update.connection = some (js "open") then
    { session with status := js "connected", qr := none }
  else session

/-- A close notification whose reason is "logged out". -/
def Update.isLoggedOutClose (env : Env) (update : Update) : Bool :=
  decide (update.connection = some (js "close") ∧ update.statusCode = some env.loggedOut)

/-- The forward order of the state machine as the specification draws it:
`initializing → qr_ready → connected` and
`initializing → pairing_code_ready → connected`; staying put is allowed. -/
def movesForward (before after : JSString) : Bool :=
  decide (before = after) ||
  (decide (before = js "initializing") &&
    (decide (after = js "qr_ready") || decide (after = js "pairing_code_ready") ||
      decide (after = js "connected"))) ||
  ((decide (before = js "qr_ready") || decide (before = js "pairing_code_ready")) &&
    decide (after = js "connected"))

/-- The response of a `status` call for `sessionId` made after a `create` call
for it has returned: `during` are the events delivered during the wait of the
`create`, `after` those delivered between its response and the `status`. -/
def statusAfterCreate (env : Env) (st : State) (sessionId : JSString)
    (during after : List Event) : Response :=
  (getSessionStatus (after.foldl (deliver env) (createSession env st sessionId during).state)
    sessionId).response

/-- The statuses the specification allows a `status` call to report after a
`create`. -/
def createPhase (status : Option JSString) : Prop :=
  status = some (js "initializing") ∨ status = some (js "qr_ready") ∨
    status = some (js "connected")

instance (status : Option JSString) : Decidable (createPhase status) :=
  inferInstanceAs (Decidable (status = some (js "initializing") ∨
    status = some (js "qr_ready") ∨ status = some (js "connected")))

/-! ## Concrete scenarios -/

/-- An environment for the concrete runs: logged-out code 401. -/
def demoEnv : Env :=
  { toDataURL := fun payload => js "data:image/png;base64," ++ payload
    loggedOut := 401
    nullJoinMessage := js "Cannot read properties of null (reading \x27join\x27)" }

/-- The notification `{ connection: 'open' }`. -/
def openUpdate : Update := { connection := some (js "open"), statusCode := none, qr := none }

/-- The notification of a close whose status code is `loggedOut`. -/
def loggedOutClose : Update :=
  { connection := some (js "close"), statusCode := some 401, qr := none }

/-- The notification `{ qr: 'payload' }`. -/
def qrUpdate : Update := { connection := none, statusCode := none, qr := some (js "payload") }

/-- A session `s1` is created and its client reports an open connection. -/
def connectedRun : List Step :=
  [Step.api (Call.create (js "s1")), Step.event (Event.connectionUpdate 0 openUpdate)]

/-- A `pair` request for `s1` that the client answers with `ABCD1234`. -/
def pairStep : Step :=
  Step.api (Call.pair (js "s1") (some (js "12345678901")) (Except.ok (js "ABCD1234")))

/-- The state after a `pair` request for the unknown id `s1` on a freshly
started process, answered with `ABCD1234`. -/
def pairedOnly : State :=
  (requestPairingCode demoEnv State.init (js "s1") (some (js "12345678901"))
    (Except.ok (js "ABCD1234"))).state

/-- A `destroy` request for `s1` whose logout returns. -/
def destroyStep : Step := Step.api (Call.destroy (js "s1") (Except.ok ()))

/-- A `pair` request for `s1` on a freshly started process, answered with
`ABCD1234`, during whose wait for that answer a `destroy` request for `s1` is
handled. -/
def pairWithDestroy : Outcome :=
  requestPairingCodeInterleaved demoEnv State.init (js "s1") (some (js "12345678901"))
    [] [destroyStep] (Except.ok (js "ABCD1234"))

/-! ## The registry -/

theorem Registry.get_set_same (m : Registry) (k : JSString) (v : Session) :
    (m.set k v).get k = some v := by
  induction m with
  | nil => simp [Registry.set, Registry.get]
  | cons e rest ih =>
    obtain ⟨k0, w⟩ := e
    by_cases h : k0 = k
    · simp [Registry.set, Registry.get, h]
    · simp [Registry.set, Registry.get, h, ih]

theorem Registry.get_set_other (m : Registry) (k key : JSString) (v : Session)
    (h : key ≠ k) : (m.set k v).get key = m.get key := by
  induction m with
  | nil => simp [Registry.set, Registry.get, Ne.symm h]
  | cons e rest ih =>
    obtain ⟨k0, w⟩ := e
    by_cases h0 : k0 = k
    · subst h0
      simp [Registry.set, Registry.get, Ne.symm h]
    · by_cases h1 : k0 = key
      · subst h1
        simp [Registry.set, Registry.get, h]
      · simp [Registry.set, Registry.get, h0, h1, ih]

theorem Registry.get_delete_same (m : Registry) (k : JSString) :
    (m.delete k).get k = none := by
  induction m with
  | nil => simp [Registry.delete, Registry.get]
  | cons e rest ih =>
    obtain ⟨k0, w⟩ := e
    by_cases h : k0 = k
    · simpa [Registry.delete, List.filter_cons, h] using ih
    · simpa [Registry.delete, List.filter_cons, h, Registry.get] using ih

theorem Registry.get_delete_other (m : Registry) (k key : JSString) (h : key ≠ k) :
    (m.delete k).get key = m.get key := by
  induction m with
  | nil => simp [Registry.delete, Registry.get]
  | cons e rest ih =>
    obtain ⟨k0, w⟩ := e
    by_cases h0 : k0 = k
    · subst h0
      simpa [Registry.delete, List.filter_cons, Registry.get, Ne.symm h] using ih
    · by_cases h1 : k0 = key
      · subst h1
        simp [Registry.delete, List.filter_cons, h, Registry.get]
      · simpa [Registry.delete, List.filter_cons, h0, Registry.get, h1] using ih

theorem Registry.delete_of_get_none (m : Registry) (k : JSString) (h : m.get k = none) :
    m.delete k = m := by
  induction m with
  | nil => simp [Registry.delete]
  | cons e rest ih =>
    obtain ⟨k0, w⟩ := e
    by_cases h0 : k0 = k
    · simp [Registry.get, h0] at h
    · simp only [Registry.get, h0, if_false] at h
      have hrest := ih h
      simp only [Registry.delete] at hrest ⊢
      rw [List.filter_cons]
      simp only [ne_eq, h0, not_false_eq_true, decide_True, if_true]
      rw [hrest]

theorem Registry.delete_delete (m : Registry) (k : JSString) :
    (m.delete k).delete k = m.delete k :=
  Registry.delete_of_get_none _ _ (Registry.get_delete_same m k)

/-! ## Validation of the phone number (`pair`) -/

theorem replaceNonDigits_eq_filter (p : JSString) :
    replaceNonDigits p = p.filter (fun u => decide (0x30 ≤ u ∧ u ≤ 0x39)) := by
  unfold replaceNonDigits
  congr 1
  funext u
  simp [isNonDigit]

/-- A phone-number string with fewer than ten digits is rejected. -/
theorem short_phone_rejected (env : Env) (st : State) (sessionId : JSString)
    (p : JSString) (reply : Except JSString JSString)
    (hlen : (replaceNonDigits p).length < 10) :
    (requestPairingCode env st sessionId (some p) reply).response.httpStatus = 400 ∧
    (requestPairingCode env st sessionId (some p) reply).response.success = false ∧
    (requestPairingCode env st sessionId (some p) reply).calls = [] ∧
    (requestPairingCode env st sessionId (some p) reply).state = st := by
  cases p with
  | nil => simp [requestPairingCode, truthy]
  | cons u rest =>
    simp only [requestPairingCode, truthy, Option.getD_some, hlen]
    simp

/-- C1: when the phone number is missing or empty, or fewer than ten characters
are left after every non-digit is deleted, `pair` answers HTTP 400 with
`success = false`, makes no call to the client library, and leaves the state
(the registry in particular, so also the absence of an entry for the id)
exactly as it was. -/
theorem pair_invalid_phone_rejected (env : Env) (st : State) (sessionId : JSString)
    (phoneNumber : Option JSString) (reply : Except JSString JSString)
    (h : phoneNumber = none ∨ phoneNumber = some [] ∨
      ∃ p, phoneNumber = some p ∧
        (p.filter (fun u => decide (0x30 ≤ u ∧ u ≤ 0x39))).length < 10) :
    (requestPairingCode env st sessionId phoneNumber reply).response.httpStatus = 400 ∧
    (requestPairingCode env st sessionId phoneNumber reply).response.success = false ∧
    (requestPairingCode env st sessionId phoneNumber reply).calls = [] ∧
    (requestPairingCode env st sessionId phoneNumber reply).state = st ∧
    (requestPairingCode env st sessionId phoneNumber reply).state.activeSessions.get sessionId
      = st.activeSessions.get sessionId := by
  rcases h with h | h | ⟨p, h, hlen⟩
  · subst h
    simp [requestPairingCode, truthy]
  · subst h
    simp [requestPairingCode, truthy]
  · subst h
    rw [← replaceNonDigits_eq_filter] at hlen
    cases p with
    | nil => simp [requestPairingCode, truthy]
    | cons u rest =>
      simp only [requestPairingCode, truthy, Option.getD_some, hlen]
      simp

theorem pair_invalid_phone_rejected_witness :
    (some (js "123") = none ∨ some (js "123") = some [] ∨
      ∃ p, some (js "123") = some p ∧
        (p.filter (fun u => decide (0x30 ≤ u ∧ u ≤ 0x39))).length < 10) ∧
    (requestPairingCode demoEnv State.init (js "s1") (some (js "123"))
      (Except.ok (js "ABCD1234"))).response.httpStatus = 400 ∧
    (requestPairingCode demoEnv State.init (js "s1") (some (js "123"))
      (Except.ok (js "ABCD1234"))).response.success = false ∧
    (requestPairingCode demoEnv State.init (js "s1") (some (js "123"))
      (Except.ok (js "ABCD1234"))).calls = [] ∧
    (requestPairingCode demoEnv State.init (js "s1") (some (js "123"))
      (Except.ok (js "ABCD1234"))).state = State.init ∧
    (requestPairingCode demoEnv State.init (js "s1") (some (js "123"))
      (Except.ok (js "ABCD1234"))).state.activeSessions.get (js "s1")
      = State.init.activeSessions.get (js "s1") :=
  have h : (some (js "123") = none ∨ some (js "123") = some [] ∨
      ∃ p, some (js "123") = some p ∧
        (p.filter (fun u => decide (0x30 ≤ u ∧ u ≤ 0x39))).length < 10) :=
    Or.inr (Or.inr ⟨js "123", rfl, by decide⟩)
  ⟨h, pair_invalid_phone_rejected demoEnv State.init (js "s1") (some (js "123"))
    (Except.ok (js "ABCD1234")) h⟩

/-! ## `destroy` and `status` -/

/-- C2: whether or not the id is registered and whether logout returns or
throws, `destroy` reports `success = true`; afterwards the id has no entry,
every other id has the entry it had, and the entries are the original ones
without those of the id, in their order; clients and timers are untouched.
On an unknown id the state is unchanged, and a second `destroy` of the same id
changes nothing and reports success again. -/
theorem destroy_removes_entry_and_succeeds (st : State) (sessionId : JSString)
    (logout : Except JSString Unit) :
    (destroySession st sessionId logout).response.success = true ∧
    (destroySession st sessionId logout).state.activeSessions.get sessionId = none ∧
    (∀ key, key ≠ sessionId →
      (destroySession st sessionId logout).state.activeSessions.get key
        = st.activeSessions.get key) ∧
    (destroySession st sessionId logout).state.activeSessions
      = st.activeSessions.filter (fun e => decide (e.1 ≠ sessionId)) ∧
    (destroySession st sessionId logout).state.sockets = st.sockets ∧
    (destroySession st sessionId logout).state.timers = st.timers ∧
    (st.activeSessions.get sessionId = none →
      (destroySession st sessionId logout).state = st) ∧
    (∀ logout2 : Except JSString Unit,
      (destroySession (destroySession st sessionId logout).state sessionId logout2).state
        = (destroySession st sessionId logout).state ∧
      (destroySession (destroySession st sessionId logout).state sessionId
        logout2).response.success = true) := by
  refine ⟨rfl, ?_, ?_, rfl, rfl, rfl, ?_, ?_⟩
  · exact Registry.get_delete_same _ _
  · intro key hkey
    exact Registry.get_delete_other _ _ _ hkey
  · intro hnone
    simp only [destroySession]
    rw [Registry.delete_of_get_none _ _ hnone]
  · intro logout2
    refine ⟨?_, rfl⟩
    simp only [destroySession]
    rw [Registry.delete_delete]

theorem destroy_removes_entry_and_succeeds_witness :
    (destroySession State.init (js "ghost") (Except.error (js "boom"))).response.success = true ∧
    (destroySession State.init (js "ghost") (Except.error (js "boom"))).state = State.init :=
  ⟨(destroy_removes_entry_and_succeeds State.init (js "ghost") (Except.error (js "boom"))).1,
   (destroy_removes_entry_and_succeeds State.init (js "ghost")
      (Except.error (js "boom"))).2.2.2.2.2.2.1 rfl⟩

/-- C4: a `status` call made directly after `destroy` of the same id answers
`success = false` with status `not_found`, whatever the state was before the
`destroy` and whether logout returned or threw. -/
theorem status_after_destroy_not_found (st : State) (sessionId : JSString)
    (logout : Except JSString Unit) :
    (getSessionStatus (destroySession st sessionId logout).state sessionId).response.success
      = false ∧
    (getSessionStatus (destroySession st sessionId logout).state sessionId).response.status
      = some (js "not_found") := by
  have h : (destroySession st sessionId logout).state.activeSessions.get sessionId = none :=
    Registry.get_delete_same _ _
  simp [getSessionStatus, h]

/-! ## Normalisation of the phone number and formatting of the code (`pair`) -/

/-- The outcome of `pair` once the phone number has passed validation and a
session is registered. -/
theorem requestPairingCode_valid (env : Env) (st : State) (sessionId : JSString)
    (p : JSString) (reply : Except JSString JSString)
    (hlen : 10 ≤ (replaceNonDigits p).length) :
    ∃ (st1 : State) (session : Session) (created : List ClientCall),
      st1.activeSessions.get sessionId = some session ∧
      (∀ c ∈ created, ∀ sock number, c ≠ ClientCall.requestPairingCode sock number) ∧
      (requestPairingCode env st sessionId (some p) reply).calls
        = created ++ [ClientCall.requestPairingCode session.sock (replaceNonDigits p)] ∧
      (∀ msg, reply = Except.error msg →
        (requestPairingCode env st sessionId (some p) reply).response.success = false ∧
        (requestPairingCode env st sessionId (some p) reply).response.httpStatus = 500) ∧
      (∀ code, reply = Except.ok code → jsMatch code = none →
        (requestPairingCode env st sessionId (some p) reply).response.success = false ∧
        (requestPairingCode env st sessionId (some p) reply).response.httpStatus = 500) ∧
      (∀ code groups, reply = Except.ok code → jsMatch code = some groups →
        (requestPairingCode env st sessionId (some p) reply).response.success = true ∧
        (requestPairingCode env st sessionId (some p) reply).response.httpStatus = 200 ∧
        (requestPairingCode env st sessionId (some p) reply).response.phoneNumber
          = some (replaceNonDigits p) ∧
        (requestPairingCode env st sessionId (some p) reply).response.pairingCode
          = some (join groups (js "-")) ∧
        (requestPairingCode env st sessionId (some p) reply).response.rawCode = some code ∧
        (requestPairingCode env st sessionId (some p) reply).state.activeSessions
          = st1.activeSessions.set sessionId
              { session with status := js "pairing_code_ready", pairingCode := some code }) := by
  have hp : truthy (some p) = true := by
    cases p with
    | nil => simp [replaceNonDigits] at hlen
    | cons u rest => rfl
  have hlen2 : ¬ (replaceNonDigits p).length < 10 := by omega
  cases hget : st.activeSessions.get sessionId with
  | some session =>
    refine ⟨st, session, [], hget, by simp, ?_, ?_, ?_, ?_⟩
    · cases reply with
      | error msg => simp [requestPairingCode, hp, hlen2, hget]
      | ok code =>
        cases hm : jsMatch code <;> simp [requestPairingCode, hp, hlen2, hget, hm]
    · intro msg hmsg
      subst hmsg
      simp [requestPairingCode, hp, hlen2, hget]
    · intro code hcode hm
      subst hcode
      simp [requestPairingCode, hp, hlen2, hget, hm]
    · intro code groups hcode hm
      subst hcode
      simp [requestPairingCode, hp, hlen2, hget, hm]
  | none =>
    refine ⟨{ activeSessions := st.activeSessions.set sessionId
                { sock := st.sockets.length, qr := none, status := js "initializing",
                  pairingCode := none }
              sockets := st.sockets ++ [none]
              timers := st.timers },
            { sock := st.sockets.length, qr := none, status := js "initializing",
              pairingCode := none },
            [ClientCall.useMultiFileAuthState sessionId,
             ClientCall.makeWASocket st.sockets.length],
            Registry.get_set_same _ _ _, by simp, ?_, ?_, ?_, ?_⟩
    · cases reply with
      | error msg => simp [requestPairingCode, hp, hlen2, hget]
      | ok code =>
        cases hm : jsMatch code <;> simp [requestPairingCode, hp, hlen2, hget, hm]
    · intro msg hmsg
      subst hmsg
      simp [requestPairingCode, hp, hlen2, hget]
    · intro code hcode hm
      subst hcode
      simp [requestPairingCode, hp, hlen2, hget, hm]
    · intro code groups hcode hm
      subst hcode
      simp [requestPairingCode, hp, hlen2, hget, hm]

/-- C5: the number `pair` works with is the subsequence of the characters
`0`-`9` of the phone number `p`, in their order: it is a subsequence of `p`,
all its members are digits, and it contains every all-digit subsequence of `p`
(so it is `p` with exactly the non-digits removed).  It is the number that is
validated (HTTP 400 exactly when it has fewer than ten characters), the number
every pairing-code request to the client carries (one such request is made when
validation passes), and the `phoneNumber` of every success response.
`+1 (234) 567-8901` gives `12345678901`; an all-digit string is unchanged. -/
theorem pair_uses_digit_subsequence (env : Env) (st : State) (sessionId : JSString)
    (p : JSString) (reply : Except JSString JSString) :
    (replaceNonDigits p).Sublist p ∧
    (∀ u ∈ replaceNonDigits p, 0x30 ≤ u ∧ u ≤ 0x39) ∧
    (∀ q : JSString, q.Sublist p → (∀ u ∈ q, 0x30 ≤ u ∧ u ≤ 0x39) →
      q.Sublist (replaceNonDigits p)) ∧
    ((requestPairingCode env st sessionId (some p) reply).response.httpStatus = 400 ↔
      (p.filter (fun u => decide (0x30 ≤ u ∧ u ≤ 0x39))).length < 10) ∧
    (∀ c ∈ (requestPairingCode env st sessionId (some p) reply).calls, ∀ sock number,
      c = ClientCall.requestPairingCode sock number →
        number = p.filter (fun u => decide (0x30 ≤ u ∧ u ≤ 0x39))) ∧
    (10 ≤ (p.filter (fun u => decide (0x30 ≤ u ∧ u ≤ 0x39))).length →
      ∃ sock, ClientCall.requestPairingCode sock
          (p.filter (fun u => decide (0x30 ≤ u ∧ u ≤ 0x39)))
        ∈ (requestPairingCode env st sessionId (some p) reply).calls) ∧
    ((requestPairingCode env st sessionId (some p) reply).response.success = true →
      (requestPairingCode env st sessionId (some p) reply).response.phoneNumber
        = some (p.filter (fun u => decide (0x30 ≤ u ∧ u ≤ 0x39)))) ∧
    ((∀ u ∈ p, 0x30 ≤ u ∧ u ≤ 0x39) → replaceNonDigits p = p) ∧
    replaceNonDigits (js "+1 (234) 567-8901") = js "12345678901" := by
  have hfil := replaceNonDigits_eq_filter p
  refine ⟨?_, ?_, ?_, ?_, ?_, ?_, ?_, ?_, by decide⟩
  · rw [hfil]
    exact List.filter_sublist p
  · intro u hu
    rw [hfil] at hu
    simpa using (List.mem_filter.mp hu).2
  · intro q hq hdig
    rw [hfil]
    have hqq : q.filter (fun u => decide (0x30 ≤ u ∧ u ≤ 0x39)) = q :=
      List.filter_eq_self.mpr (fun u hu => by simpa using hdig u hu)
    rw [← hqq]
    exact hq.filter _
  · rw [← hfil]
    by_cases hlen : (replaceNonDigits p).length < 10
    · have h := short_phone_rejected env st sessionId p reply hlen
      simp [h, hlen]
    · obtain ⟨st1, session, created, -, -, -, herr, hnull, hok⟩ :=
        requestPairingCode_valid env st sessionId p reply (by omega)
      have h500 : (requestPairingCode env st sessionId (some p) reply).response.httpStatus
          ≠ 400 := by
        cases reply with
        | error msg => rw [(herr msg rfl).2]; decide
        | ok code =>
          cases hm : jsMatch code with
          | none => rw [(hnull code rfl hm).2]; decide
          | some groups => rw [(hok code groups rfl hm).2.1]; decide
      simp [h500, hlen]
  · intro c hc sock number hcall
    rw [← hfil]
    by_cases hlen : (replaceNonDigits p).length < 10
    · have h := short_phone_rejected env st sessionId p reply hlen
      rw [h.2.2.1] at hc
      simp at hc
    · obtain ⟨st1, session, created, -, hcreated, hcalls, -, -, -⟩ :=
        requestPairingCode_valid env st sessionId p reply (by omega)
      rw [hcalls] at hc
      rcases List.mem_append.mp hc with hc | hc
      · exact absurd hcall (hcreated c hc sock number)
      · have hc2 : c = ClientCall.requestPairingCode session.sock (replaceNonDigits p) := by
          simpa using hc
        rw [hc2] at hcall
        injection hcall with _ hnum
        exact hnum.symm
  · intro hlen
    rw [← hfil] at hlen ⊢
    obtain ⟨st1, session, created, -, -, hcalls, -, -, -⟩ :=
      requestPairingCode_valid env st sessionId p reply hlen
    exact ⟨session.sock, by rw [hcalls]; simp⟩
  · intro hsucc
    rw [← hfil]
    by_cases hlen : (replaceNonDigits p).length < 10
    · have h := short_phone_rejected env st sessionId p reply hlen
      rw [h.2.1] at hsucc
      exact absurd hsucc (by decide)
    · obtain ⟨st1, session, created, -, -, -, herr, hnull, hok⟩ :=
        requestPairingCode_valid env st sessionId p reply (by omega)
      cases reply with
      | error msg => rw [(herr msg rfl).1] at hsucc; exact absurd hsucc (by decide)
      | ok code =>
        cases hm : jsMatch code with
        | none => rw [(hnull code rfl hm).1] at hsucc; exact absurd hsucc (by decide)
        | some groups => exact (hok code groups rfl hm).2.2.1
  · intro hdig
    rw [hfil]
    exact List.filter_eq_self.mpr (fun u hu => by simpa using hdig u hu)

theorem pair_uses_digit_subsequence_witness :
    (10 ≤ ((js "+1 (234) 567-8901").filter
        (fun u => decide (0x30 ≤ u ∧ u ≤ 0x39))).length) ∧
    (∃ sock, ClientCall.requestPairingCode sock
        ((js "+1 (234) 567-8901").filter (fun u => decide (0x30 ≤ u ∧ u ≤ 0x39)))
      ∈ (requestPairingCode demoEnv State.init (js "s1") (some (js "+1 (234) 567-8901"))
          (Except.ok (js "ABCD1234"))).calls) ∧
    (requestPairingCode demoEnv State.init (js "s1") (some (js "+1 (234) 567-8901"))
        (Except.ok (js "ABCD1234"))).response.phoneNumber
      = some ((js "+1 (234) 567-8901").filter (fun u => decide (0x30 ≤ u ∧ u ≤ 0x39))) ∧
    replaceNonDigits (js "0123456789") = js "0123456789" :=
  ⟨by decide,
   (pair_uses_digit_subsequence demoEnv State.init (js "s1") (js "+1 (234) 567-8901")
      (Except.ok (js "ABCD1234"))).2.2.2.2.2.1 (by decide),
   (pair_uses_digit_subsequence demoEnv State.init (js "s1") (js "+1 (234) 567-8901")
      (Except.ok (js "ABCD1234"))).2.2.2.2.2.2.1 (by decide),
   (pair_uses_digit_subsequence demoEnv State.init (js "s1") (js "0123456789")
      (Except.ok (js "ABCD1234"))).2.2.2.2.2.2.2.1 (by decide)⟩

theorem matchAll_nil (fuel : Nat) : matchAll fuel [] = [] := by
  cases fuel <;> rfl

theorem matchAtHead_of_no_terminator (u : Nat) (rest : JSString)
    (hs : ∀ x ∈ u :: rest, isLineTerminator x = false) :
    matchAtHead (u :: rest) = u :: rest.take 3 := by
  unfold matchAtHead
  have htake : (u :: rest).take 4 = u :: rest.take 3 := rfl
  rw [htake]
  apply List.takeWhile_eq_self_iff.mpr
  intro x hx
  have hmem : x ∈ u :: rest := by
    rcases List.mem_cons.mp hx with h | h
    · exact h ▸ List.mem_cons_self _ _
    · exact List.mem_cons_of_mem _ (List.mem_of_mem_take h)
  simp [hs x hmem]

theorem matchAll_cons_of_no_terminator (fuel : Nat) (u : Nat) (rest : JSString)
    (hs : ∀ x ∈ u :: rest, isLineTerminator x = false) :
    matchAll (fuel + 1) (u :: rest) = (u :: rest.take 3) :: matchAll fuel (rest.drop 3) := by
  have hdrop : (u :: rest).drop (u :: rest.take 3).length = rest.drop 3 := by
    simp only [List.length_cons, List.length_take, List.drop_succ_cons]
    rcases Nat.le_total 3 rest.length with h | h
    · rw [Nat.min_eq_left h]
    · rw [Nat.min_eq_right h, List.drop_eq_nil_of_le h, List.drop_eq_nil_of_le (le_refl _)]
  rw [matchAll, matchAtHead_of_no_terminator u rest hs]
  simp only
  rw [hdrop]

/-- On a string without line terminators the matches of `/.{1,4}/g` cut the
string into consecutive groups of four, the last one possibly shorter. -/
theorem matchAll_of_no_terminator (fuel : Nat) :
    ∀ s : JSString, s.length ≤ fuel → (∀ x ∈ s, isLineTerminator x = false) →
      (matchAll fuel s).flatten = s ∧
      (∀ g ∈ (matchAll fuel s).dropLast, g.length = 4) ∧
      (∀ g ∈ matchAll fuel s, 1 ≤ g.length ∧ g.length ≤ 4) ∧
      (s ≠ [] → matchAll fuel s ≠ []) := by
  induction fuel with
  | zero =>
    intro s hlen _
    have hs : s = [] := List.length_eq_zero.mp (Nat.le_zero.mp hlen)
    subst hs
    simp [matchAll]
  | succ n ih =>
    intro s hlen hs
    cases s with
    | nil => simp [matchAll]
    | cons u rest =>
      have hrest : ∀ x ∈ rest.drop 3, isLineTerminator x = false := fun x hx =>
        hs x (List.mem_cons_of_mem _ (List.mem_of_mem_drop hx))
      have hlen2 : (rest.drop 3).length ≤ n := by
        simp only [List.length_drop, List.length_cons] at hlen ⊢
        omega
      obtain ⟨hflat, hfour, hbound, hne⟩ := ih (rest.drop 3) hlen2 hrest
      rw [matchAll_cons_of_no_terminator n u rest hs]
      refine ⟨?_, ?_, ?_, by simp⟩
      · rw [List.flatten_cons, hflat, List.cons_append, List.take_append_drop]
      · intro g hg
        by_cases hnil : matchAll n (rest.drop 3) = []
        · rw [hnil] at hg
          simp at hg
        · rw [List.dropLast_cons_of_ne_nil hnil] at hg
          rcases List.mem_cons.mp hg with h | h
          · have hd : rest.drop 3 ≠ [] := by
              intro h0
              rw [h0, matchAll_nil] at hnil
              exact hnil rfl
            have h3 : 3 < rest.length := by
              by_contra hcon
              exact hd (List.drop_eq_nil_of_le (by omega))
            rw [h]
            simp only [List.length_cons, List.length_take]
            omega
          · exact hfour g h
      · intro g hg
        rcases List.mem_cons.mp hg with h | h
        · rw [h]
          simp only [List.length_cons, List.length_take]
          omega
        · exact hbound g h

theorem jsMatch_of_no_terminator (c : JSString) (hne : c ≠ [])
    (hs : ∀ x ∈ c, isLineTerminator x = false) :
    jsMatch c = some (matchAll c.length c) := by
  have h := (matchAll_of_no_terminator c.length c (le_refl _) hs).2.2.2 hne
  unfold jsMatch
  cases hm : matchAll c.length c with
  | nil => exact absurd hm h
  | cons g gs => rfl

/-- C6: for a valid phone number and a non-empty pairing code `c` without line
terminators returned by the client, `pair` succeeds, `rawCode` is `c`, and
`pairingCode` is `c` cut from left to right into consecutive groups of four
characters (only the last group possibly shorter, none empty) joined by `-`.
An 8-character code `XXXXYYYY` is formatted `XXXX-YYYY`, so `ABCD1234` becomes
`ABCD-1234`. -/
theorem pair_formats_code_in_fours (env : Env) (st : State) (sessionId : JSString)
    (p c : JSString) (hp : 10 ≤ (replaceNonDigits p).length) (hne : c ≠ [])
    (hc : ∀ u ∈ c, u ≠ 0x0A ∧ u ≠ 0x0D ∧ u ≠ 0x2028 ∧ u ≠ 0x2029) :
    (requestPairingCode env st sessionId (some p) (Except.ok c)).response.success = true ∧
    (requestPairingCode env st sessionId (some p) (Except.ok c)).response.rawCode = some c ∧
    (∃ groups : List JSString,
      groups.flatten = c ∧ groups ≠ [] ∧
      (∀ g ∈ groups.dropLast, g.length = 4) ∧
      (∀ g ∈ groups, 1 ≤ g.length ∧ g.length ≤ 4) ∧
      (requestPairingCode env st sessionId (some p) (Except.ok c)).response.pairingCode
        = some ((js "-").intercalate groups)) ∧
    (c.length = 8 →
      (requestPairingCode env st sessionId (some p) (Except.ok c)).response.pairingCode
        = some (c.take 4 ++ js "-" ++ c.drop 4)) ∧
    (c = js "ABCD1234" →
      (requestPairingCode env st sessionId (some p) (Except.ok c)).response.pairingCode
        = some (js "ABCD-1234")) := by
  have hs : ∀ x ∈ c, isLineTerminator x = false := by
    intro x hx
    obtain ⟨h1, h2, h3, h4⟩ := hc x hx
    simp [isLineTerminator, h1, h2, h3, h4]
  have hm := jsMatch_of_no_terminator c hne hs
  obtain ⟨hflat, hfour, hbound, hnonnil⟩ := matchAll_of_no_terminator c.length c (le_refl _) hs
  obtain ⟨st1, session, created, -, -, -, -, -, hok⟩ :=
    requestPairingCode_valid env st sessionId p (Except.ok c) hp
  obtain ⟨hsucc, -, -, hcode, hraw, -⟩ := hok c _ rfl hm
  have h8 : c.length = 8 →
      (requestPairingCode env st sessionId (some p) (Except.ok c)).response.pairingCode
        = some (c.take 4 ++ js "-" ++ c.drop 4) := by
    intro hlen
    rw [hcode]
    match c, hlen, hs with
    | [a1, a2, a3, a4, a5, a6, a7, a8], _, hs8 =>
      have e1 := matchAll_cons_of_no_terminator 7 a1 [a2, a3, a4, a5, a6, a7, a8] hs8
      have e2 := matchAll_cons_of_no_terminator 6 a5 [a6, a7, a8]
        (fun x hx => hs8 x (by simp only [List.mem_cons] at hx ⊢; tauto))
      simp only [List.length_cons, List.length_nil] at e1 ⊢
      simp only [List.take, List.drop] at e1 e2
      rw [e1, e2, matchAll_nil]
      rfl
  refine ⟨hsucc, hraw, ⟨matchAll c.length c, hflat, hnonnil hne, hfour, hbound, hcode⟩, h8, ?_⟩
  intro habcd
  rw [h8 (by rw [habcd]; decide), habcd]
  decide

theorem pair_formats_code_in_fours_witness :
    (10 ≤ (replaceNonDigits (js "12345678901")).length) ∧
    (js "ABCD1234" ≠ []) ∧
    (∀ u ∈ js "ABCD1234", u ≠ 0x0A ∧ u ≠ 0x0D ∧ u ≠ 0x2028 ∧ u ≠ 0x2029) ∧
    (requestPairingCode demoEnv State.init (js "s1") (some (js "12345678901"))
      (Except.ok (js "ABCD1234"))).response.success = true ∧
    (requestPairingCode demoEnv State.init (js "s1") (some (js "12345678901"))
      (Except.ok (js "ABCD1234"))).response.rawCode = some (js "ABCD1234") ∧
    (requestPairingCode demoEnv State.init (js "s1") (some (js "12345678901"))
      (Except.ok (js "ABCD1234"))).response.pairingCode = some (js "ABCD-1234") :=
  have h := pair_formats_code_in_fours demoEnv State.init (js "s1") (js "12345678901")
    (js "ABCD1234") (by decide) (by decide) (by decide)
  ⟨by decide, by decide, by decide, h.1, h.2.1, h.2.2.2.2 rfl⟩

/-! ## Effect of each step on the registry -/

theorem createSessionBegin_get (st : State) (sessionId key : JSString) :
    (createSessionBegin st sessionId).activeSessions.get key
      = if key = sessionId then some (Session.fresh st.sockets.length)
        else st.activeSessions.get key := by
  by_cases h : key = sessionId
  · subst h
    simp [createSessionBegin, Session.fresh, Registry.get_set_same]
  · simp [createSessionBegin, h, Registry.get_set_other _ _ _ _ h]

theorem onQr_get (env : Env) (st : State) (sessionId key : JSString) (update : Update) :
    (onQr env st sessionId update).activeSessions.get key
      = if key = sessionId then (st.activeSessions.get sessionId).map (Session.afterQr env update)
        else st.activeSessions.get key := by
  unfold onQr Session.afterQr
  by_cases hq : truthy update.qr = true
  · cases hget : st.activeSessions.get sessionId with
    | none =>
      by_cases h : key = sessionId
      · subst h
        simp [hq, hget]
      · simp [hq, hget, h]
    | some session =>
      by_cases h : key = sessionId
      · subst h
        simp [hq, hget, Registry.get_set_same]
      · simp [hq, hget, h, Registry.get_set_other _ _ _ _ h]
  · by_cases h : key = sessionId
    · subst h
      cases hget : st.activeSessions.get key <;> simp [hq, hget]
    · simp [hq, h]

theorem onOpen_get (st : State) (sessionId key : JSString) (update : Update) :
    (onOpen st sessionId update).activeSessions.get key
      = if key = sessionId then (st.activeSessions.get sessionId).map (Session.afterOpen update)
        else st.activeSessions.get key := by
  unfold onOpen Session.afterOpen
  by_cases hq : update.connection = some (js "open")
  · cases hget : st.activeSessions.get sessionId with
    | none =>
      by_cases h : key = sessionId
      · subst h
        simp [hq, hget]
      · simp [hq, hget, h]
    | some session =>
      by_cases h : key = sessionId
      · subst h
        simp [hq, hget, Registry.get_set_same]
      · simp [hq, hget, h, Registry.get_set_other _ _ _ _ h]
  · by_cases h : key = sessionId
    · subst h
      cases hget : st.activeSessions.get key <;> simp [hq, hget]
    · simp [hq, h]

theorem onClose_get (env : Env) (st : State) (sessionId key : JSString) (update : Update) :
    (onClose env st sessionId update).activeSessions.get key
      = if key = sessionId ∧ update.isLoggedOutClose env = true then none
        else st.activeSessions.get key := by
  unfold onClose Update.isLoggedOutClose
  by_cases hc : update.connection = some (js "close")
  · by_cases hl : update.statusCode = some env.loggedOut
    · by_cases h : key = sessionId
      · subst h
        simp [hc, hl, Registry.get_delete_same]
      · simp [hc, hl, h, Registry.get_delete_other _ _ _ h]
    · simp [hc, hl]
  · simp [hc]

/-- The entry of `key` after the `connection.update` listener for `sessionId`
has run. -/
theorem onConnectionUpdate_get (env : Env) (st : State) (sessionId key : JSString)
    (update : Update) :
    (onConnectionUpdate env st sessionId update).activeSessions.get key
      = if key = sessionId then
          (if update.isLoggedOutClose env = true then none
           else (st.activeSessions.get sessionId).map
             (fun s => (s.afterQr env update).afterOpen update))
        else st.activeSessions.get key := by
  unfold onConnectionUpdate
  rw [onClose_get]
  by_cases h : key = sessionId
  · subst h
    by_cases hl : update.isLoggedOutClose env = true
    · simp [hl]
    · simp only [hl, and_false, if_false, if_true]
      rw [onOpen_get, onQr_get]
      simp only [if_true, Option.map_map]
      rfl
  · simp only [h, false_and, if_false]
    rw [onOpen_get]
    simp only [h, if_false]
    rw [onQr_get]
    simp only [h, if_false]

theorem jsMatch_ne_nil (code : JSString) (groups : List JSString)
    (h : jsMatch code = some groups) : code ≠ [] := by
  intro h0
  rw [h0] at h
  simp [jsMatch, matchAll] at h

/-- The registry after `pair`: other ids keep their entry; the id keeps its
entry, or gets a fresh one (request failed downstream on an unknown id), or
gets status `pairing_code_ready` and the code (success). -/
theorem requestPairingCode_get (env : Env) (st : State) (sessionId : JSString)
    (phoneNumber : Option JSString) (reply : Except JSString JSString) :
    (∀ key, key ≠ sessionId →
      (requestPairingCode env st sessionId phoneNumber reply).state.activeSessions.get key
        = st.activeSessions.get key) ∧
    ((requestPairingCode env st sessionId phoneNumber reply).state.activeSessions.get sessionId
        = st.activeSessions.get sessionId ∨
     (st.activeSessions.get sessionId = none ∧
      (requestPairingCode env st sessionId phoneNumber reply).state.activeSessions.get sessionId
        = some (Session.fresh st.sockets.length)) ∨
     (∃ base code,
        (st.activeSessions.get sessionId = some base ∨
          (st.activeSessions.get sessionId = none ∧ base = Session.fresh st.sockets.length)) ∧
        code ≠ [] ∧ reply = Except.ok code ∧
        (requestPairingCode env st sessionId phoneNumber reply).state.activeSessions.get sessionId
          = some { base with status := js "pairing_code_ready", pairingCode := some code })) := by
  cases phoneNumber with
  | none => simp [requestPairingCode, truthy]
  | some p =>
    by_cases hlen : (replaceNonDigits p).length < 10
    · rw [(short_phone_rejected env st sessionId p reply hlen).2.2.2]
      simp
    · have hp : truthy (some p) = true := by
        cases p with
        | nil => simp [replaceNonDigits] at hlen
        | cons u rest => rfl
      cases hget : st.activeSessions.get sessionId with
      | some session =>
        cases reply with
        | error msg => simp [requestPairingCode, hp, hlen, hget]
        | ok code =>
          cases hm : jsMatch code with
          | none => simp [requestPairingCode, hp, hlen, hget, hm]
          | some groups =>
            have hne := jsMatch_ne_nil code groups hm
            refine ⟨?_, Or.inr (Or.inr ⟨session, code, Or.inl rfl, hne, rfl, ?_⟩)⟩
            · intro key hkey
              simp [requestPairingCode, hp, hlen, hget, hm,
                Registry.get_set_other _ _ _ _ hkey]
            · simp [requestPairingCode, hp, hlen, hget, hm, Registry.get_set_same]
      | none =>
        cases reply with
        | error msg =>
          refine ⟨?_, Or.inr (Or.inl ⟨rfl, ?_⟩)⟩
          · intro key hkey
            simp [requestPairingCode, hp, hlen, hget, Registry.get_set_other _ _ _ _ hkey]
          · simp [requestPairingCode, hp, hlen, hget, Registry.get_set_same, Session.fresh]
        | ok code =>
          cases hm : jsMatch code with
          | none =>
            refine ⟨?_, Or.inr (Or.inl ⟨rfl, ?_⟩)⟩
            · intro key hkey
              simp [requestPairingCode, hp, hlen, hget, hm,
                Registry.get_set_other _ _ _ _ hkey]
            · simp [requestPairingCode, hp, hlen, hget, hm, Registry.get_set_same,
                Session.fresh]
          | some groups =>
            have hne := jsMatch_ne_nil code groups hm
            refine ⟨?_, Or.inr (Or.inr ⟨Session.fresh st.sockets.length, code,
              Or.inr ⟨rfl, rfl⟩, hne, rfl, ?_⟩)⟩
            · intro key hkey
              simp [requestPairingCode, hp, hlen, hget, hm,
                Registry.get_set_other _ _ _ _ hkey]
            · simp [requestPairingCode, hp, hlen, hget, hm, Registry.get_set_same,
                Session.fresh]

/-- The entry of `key` after an event is delivered. -/
theorem deliver_get (env : Env) (st : State) (e : Event) (key : JSString) :
    (deliver env st e).activeSessions.get key = st.activeSessions.get key ∨
    (∃ sock update,
      e = Event.connectionUpdate sock update ∧ st.sockets[sock]? = some (some key) ∧
      (deliver env st e).activeSessions.get key
        = (if update.isLoggedOutClose env = true then none
           else (st.activeSessions.get key).map
             (fun s => (s.afterQr env update).afterOpen update))) ∨
    (e = Event.reconnectTimer key ∧ key ∈ st.timers ∧
      (deliver env st e).activeSessions.get key = some (Session.fresh st.sockets.length)) := by
  cases e with
  | connectionUpdate sock update =>
    cases hs : st.sockets[sock]? with
    | none => simp [deliver, hs]
    | some listener =>
      cases listener with
      | none => simp [deliver, hs]
      | some sessionId =>
        by_cases h : key = sessionId
        · subst h
          refine Or.inr (Or.inl ⟨sock, update, rfl, hs, ?_⟩)
          simp only [deliver, hs]
          rw [onConnectionUpdate_get]
          simp
        · left
          simp only [deliver, hs]
          rw [onConnectionUpdate_get]
          simp [h]
  | reconnectTimer sessionId =>
    by_cases hmem : sessionId ∈ st.timers
    · by_cases h : key = sessionId
      · subst h
        refine Or.inr (Or.inr ⟨rfl, hmem, ?_⟩)
        simp only [deliver, hmem, if_true]
        rw [createSessionBegin_get]
        simp
      · left
        simp only [deliver, hmem, if_true]
        rw [createSessionBegin_get]
        simp [h]
    · simp [deliver, hmem]

/-! ## `pair` and what happens while it waits -/

/-- With nothing in between, the interleaved handler is the plain one. -/
theorem requestPairingCodeInterleaved_nil (env : Env) (st : State) (sessionId : JSString)
    (phoneNumber : Option JSString) (reply : Except JSString JSString) :
    requestPairingCodeInterleaved env st sessionId phoneNumber [] [] reply
      = requestPairingCode env st sessionId phoneNumber reply := by
  cases phoneNumber with
  | none => simp [requestPairingCodeInterleaved, requestPairingCode, truthy]
  | some p =>
    by_cases hlen : (replaceNonDigits p).length < 10
    · cases p with
      | nil => simp [requestPairingCodeInterleaved, requestPairingCode, truthy]
      | cons u rest =>
        simp only [requestPairingCodeInterleaved, requestPairingCode, truthy,
          Option.getD_some, hlen]
        simp
    · have hp : truthy (some p) = true := by
        cases p with
        | nil => simp [replaceNonDigits] at hlen
        | cons u rest => rfl
      cases hget : st.activeSessions.get sessionId with
      | some session =>
        cases reply with
        | error msg =>
          simp [requestPairingCodeInterleaved, requestPairingCode, pairSession, run, hp, hlen,
            hget]
        | ok code =>
          cases hm : jsMatch code <;>
            simp [requestPairingCodeInterleaved, requestPairingCode, pairSession, run,
              writePairingCode, hp, hlen, hget, hm]
      | none =>
        cases reply with
        | error msg =>
          simp [requestPairingCodeInterleaved, requestPairingCode, pairSession, run, hp, hlen,
            hget]
        | ok code =>
          cases hm : jsMatch code <;>
            simp [requestPairingCodeInterleaved, requestPairingCode, pairSession, run,
              writePairingCode, hp, hlen, hget, hm, Registry.get_set_same]

/-- The response of `pair` is built from the request and the client's answer
alone: it is the same whatever happens while the handler waits. -/
theorem requestPairingCodeInterleaved_response (env : Env) (st : State)
    (sessionId : JSString) (phoneNumber : Option JSString)
    (whileLoading whileRequesting : List Step) (reply : Except JSString JSString) :
    (requestPairingCodeInterleaved env st sessionId phoneNumber whileLoading whileRequesting
      reply).response
      = (requestPairingCode env st sessionId phoneNumber reply).response := by
  cases phoneNumber with
  | none => simp [requestPairingCodeInterleaved, requestPairingCode, truthy]
  | some p =>
    by_cases hlen : (replaceNonDigits p).length < 10
    · cases p with
      | nil => simp [requestPairingCodeInterleaved, requestPairingCode, truthy]
      | cons u rest =>
        simp only [requestPairingCodeInterleaved, requestPairingCode, truthy,
          Option.getD_some, hlen]
        simp
    · have hp : truthy (some p) = true := by
        cases p with
        | nil => simp [replaceNonDigits] at hlen
        | cons u rest => rfl
      cases reply with
      | error msg => simp [requestPairingCodeInterleaved, requestPairingCode, hp, hlen]
      | ok code =>
        cases hm : jsMatch code <;>
          simp [requestPairingCodeInterleaved, requestPairingCode, hp, hlen, hm]

/-- When the pairing code is requested the id maps to the session object the
handler holds. -/
theorem pairSession_holds (env : Env) (st : State) (sessionId : JSString)
    (whileLoading : List Step) :
    ∃ session, (pairSession env st sessionId whileLoading).1.activeSessions.get sessionId
        = some session ∧
      session.sock = (pairSession env st sessionId whileLoading).2.1 := by
  cases hget : st.activeSessions.get sessionId with
  | some session => exact ⟨session, by simp [pairSession, hget], by simp [pairSession, hget]⟩
  | none =>
    exact ⟨_, by simp only [pairSession, hget]; exact Registry.get_set_same _ _ _,
      by simp [pairSession, hget]⟩

/-- The state a successful `pair` leaves. -/
theorem requestPairingCodeInterleaved_success (env : Env) (st : State)
    (sessionId : JSString) (phoneNumber : Option JSString)
    (whileLoading whileRequesting : List Step) (reply : Except JSString JSString)
    (h : (requestPairingCodeInterleaved env st sessionId phoneNumber whileLoading
      whileRequesting reply).response.success = true) :
    ∃ code, code ≠ [] ∧ reply = Except.ok code ∧
      (requestPairingCodeInterleaved env st sessionId phoneNumber whileLoading
        whileRequesting reply).state
        = writePairingCode
            (run env (pairSession env st sessionId whileLoading).1 whileRequesting)
            sessionId (pairSession env st sessionId whileLoading).2.1 code := by
  cases phoneNumber with
  | none => simp [requestPairingCodeInterleaved, truthy] at h
  | some p =>
    by_cases hlen : (replaceNonDigits p).length < 10
    · rw [requestPairingCodeInterleaved_response,
        (short_phone_rejected env st sessionId p reply hlen).2.1] at h
      exact absurd h (by decide)
    · have hp : truthy (some p) = true := by
        cases p with
        | nil => simp [replaceNonDigits] at hlen
        | cons u rest => rfl
      cases reply with
      | error msg => simp [requestPairingCodeInterleaved, hp, hlen] at h
      | ok code =>
        cases hm : jsMatch code with
        | none => simp [requestPairingCodeInterleaved, hp, hlen, hm] at h
        | some groups =>
          exact ⟨code, jsMatch_ne_nil code groups hm, rfl,
            by simp [requestPairingCodeInterleaved, hp, hlen, hm]⟩

/-- C7, refuted as stated: on a fresh process a `pair` request for `s1` with a
valid phone number is answered `ABCD1234` by the client, and while the handler
waits for that answer (line 163) a `destroy` request for `s1` is handled.
`pair` reports `success = true`, yet the registry it leaves has no entry for
`s1` (the assignments of lines 168-169 land on the removed object), and a
`status` call made directly afterwards answers `success = false` with status
`not_found`. -/
theorem pair_success_without_entry :
    pairWithDestroy.response.success = true ∧
    pairWithDestroy.state.activeSessions.get (js "s1") = none ∧
    (getSessionStatus pairWithDestroy.state (js "s1")).response.success = false ∧
    (getSessionStatus pairWithDestroy.state (js "s1")).response.status
      = some (js "not_found") ∧
    (getSessionStatus pairWithDestroy.state (js "s1")).response.hasPairingCode ≠ some true := by
  refine ⟨by decide, by decide, by decide, by decide, by decide⟩

/-- C7, amended: whatever happens while `pair` waits, if it reports
`success = true` and, when the client's answer arrives, the id still maps to
the session object the handler holds (the one it read or created before the
request), then the registry it leaves holds an entry for the id with status
`pairing_code_ready` and a non-empty stored pairing code, and a `status` call
made on that state answers `success = true` with `hasPairingCode = true`.
This is so in particular when nothing happens between the request and the
answer. -/
theorem pair_success_leaves_code_ready_if_held (env : Env) (st : State)
    (sessionId : JSString) (phoneNumber : Option JSString)
    (whileLoading whileRequesting : List Step) (reply : Except JSString JSString)
    (h : (requestPairingCodeInterleaved env st sessionId phoneNumber whileLoading
      whileRequesting reply).response.success = true)
    (hheld : (∃ current,
        (run env (pairSession env st sessionId whileLoading).1
          whileRequesting).activeSessions.get sessionId = some current ∧
        current.sock = (pairSession env st sessionId whileLoading).2.1) ∨
      whileRequesting = []) :
    (∃ session code,
      (requestPairingCodeInterleaved env st sessionId phoneNumber whileLoading
        whileRequesting reply).state.activeSessions.get sessionId = some session ∧
      session.status = js "pairing_code_ready" ∧
      session.pairingCode = some code ∧ code ≠ []) ∧
    (getSessionStatus (requestPairingCodeInterleaved env st sessionId phoneNumber
      whileLoading whileRequesting reply).state sessionId).response.success = true ∧
    (getSessionStatus (requestPairingCodeInterleaved env st sessionId phoneNumber
      whileLoading whileRequesting reply).state sessionId).response.status
      = some (js "pairing_code_ready") ∧
    (getSessionStatus (requestPairingCodeInterleaved env st sessionId phoneNumber
      whileLoading whileRequesting reply).state sessionId).response.hasPairingCode
      = some true := by
  obtain ⟨code, hcode, -, hstate⟩ := requestPairingCodeInterleaved_success env st sessionId
    phoneNumber whileLoading whileRequesting reply h
  have hcur : ∃ current,
      (run env (pairSession env st sessionId whileLoading).1
        whileRequesting).activeSessions.get sessionId = some current ∧
      current.sock = (pairSession env st sessionId whileLoading).2.1 := by
    rcases hheld with hk | hnil
    · exact hk
    · subst hnil
      exact pairSession_holds env st sessionId whileLoading
  obtain ⟨current, hget0, hsock⟩ := hcur
  have hget : (requestPairingCodeInterleaved env st sessionId phoneNumber whileLoading
      whileRequesting reply).state.activeSessions.get sessionId
      = some { current with status := js "pairing_code_ready", pairingCode := some code } := by
    rw [hstate]
    simp only [writePairingCode, hget0, hsock, if_true]
    exact Registry.get_set_same _ _ _
  refine ⟨⟨_, code, hget, rfl, rfl, hcode⟩, ?_, ?_, ?_⟩
  · simp [getSessionStatus, hget]
  · simp [getSessionStatus, hget]
  · cases code with
    | nil => exact absurd rfl hcode
    | cons u rest => simp [getSessionStatus, hget, truthy]

theorem pair_success_leaves_code_ready_if_held_witness :
    (requestPairingCodeInterleaved demoEnv State.init (js "s1") (some (js "12345678901"))
      [] [Step.api (Call.status (js "s1"))] (Except.ok (js "ABCD1234"))).response.success
      = true ∧
    (∃ current,
      (run demoEnv (pairSession demoEnv State.init (js "s1") []).1
        [Step.api (Call.status (js "s1"))]).activeSessions.get (js "s1") = some current ∧
      current.sock = (pairSession demoEnv State.init (js "s1") []).2.1) ∧
    (getSessionStatus (requestPairingCodeInterleaved demoEnv State.init (js "s1")
      (some (js "12345678901")) [] [Step.api (Call.status (js "s1"))]
      (Except.ok (js "ABCD1234"))).state (js "s1")).response.hasPairingCode = some true :=
  have hheld : ∃ current,
      (run demoEnv (pairSession demoEnv State.init (js "s1") []).1
        [Step.api (Call.status (js "s1"))]).activeSessions.get (js "s1") = some current ∧
      current.sock = (pairSession demoEnv State.init (js "s1") []).2.1 :=
    ⟨{ sock := 0, qr := none, status := js "initializing", pairingCode := none },
      by decide, by decide⟩
  ⟨by decide, hheld,
   (pair_success_leaves_code_ready_if_held demoEnv State.init (js "s1")
      (some (js "12345678901")) [] [Step.api (Call.status (js "s1"))]
      (Except.ok (js "ABCD1234")) (by decide) (Or.inl hheld)).2.2.2⟩

/-! ## Invariants of the registry -/

/-- A property of sessions that holds of a fresh session and is kept by the
listener's writes and by the write of `pair` is kept, for every entry of the
registry, by every step. -/
theorem step_keeps_sessions (env : Env) (P : Session → Prop)
    (hfresh : ∀ sock, P (Session.fresh sock))
    (hupdate : ∀ update s, P s → P ((s.afterQr env update).afterOpen update))
    (hpair : ∀ s code, code ≠ [] → P s →
      P { s with status := js "pairing_code_ready", pairingCode := some code })
    (st : State) (x : Step)
    (hinv : ∀ key s, st.activeSessions.get key = some s → P s) :
    ∀ key s, (step env st x).activeSessions.get key = some s → P s := by
  intro key s hs
  cases x with
  | api call =>
    cases call with
    | create sessionId =>
      simp only [step] at hs
      rw [createSessionBegin_get] at hs
      by_cases h : key = sessionId
      · simp only [h, if_true, Option.some.injEq] at hs
        exact hs ▸ hfresh _
      · simp only [h, if_false] at hs
        exact hinv key s hs
    | pair sessionId phoneNumber reply =>
      simp only [step] at hs
      obtain ⟨hother, hself⟩ := requestPairingCode_get env st sessionId phoneNumber reply
      by_cases h : key = sessionId
      · subst h
        rcases hself with h1 | ⟨-, h1⟩ | ⟨base, code, hbase, hne, -, h1⟩
        · rw [h1] at hs
          exact hinv key s hs
        · rw [h1] at hs
          exact Option.some.inj hs ▸ hfresh _
        · rw [h1] at hs
          have hb : P base := by
            rcases hbase with hb | ⟨-, hb⟩
            · exact hinv key base hb
            · exact hb ▸ hfresh _
          exact Option.some.inj hs ▸ hpair base code hne hb
      · rw [hother key h] at hs
        exact hinv key s hs
    | status sessionId =>
      have hst : step env st (Step.api (Call.status sessionId)) = st := by
        simp only [step, getSessionStatus]
        cases st.activeSessions.get sessionId <;> rfl
      rw [hst] at hs
      exact hinv key s hs
    | destroy sessionId logout =>
      simp only [step, destroySession] at hs
      by_cases h : key = sessionId
      · subst h
        rw [Registry.get_delete_same] at hs
        exact absurd hs (by simp)
      · rw [Registry.get_delete_other _ _ _ h] at hs
        exact hinv key s hs
  | event e =>
    simp only [step] at hs
    rcases deliver_get env st e key with h1 | ⟨sock, update, -, -, h1⟩ | ⟨-, -, h1⟩
    · rw [h1] at hs
      exact hinv key s hs
    · rw [h1] at hs
      by_cases hl : update.isLoggedOutClose env = true
      · simp [hl] at hs
      · rw [if_neg hl] at hs
        cases hget : st.activeSessions.get key with
        | none => simp [hget] at hs
        | some s0 =>
          simp only [hget, Option.map_some', Option.some.injEq] at hs
          exact hs ▸ hupdate update s0 (hinv key s0 hget)
    · rw [h1] at hs
      exact Option.some.inj hs ▸ hfresh _

theorem run_keeps_sessions (env : Env) (P : Session → Prop)
    (hfresh : ∀ sock, P (Session.fresh sock))
    (hupdate : ∀ update s, P s → P ((s.afterQr env update).afterOpen update))
    (hpair : ∀ s code, code ≠ [] → P s →
      P { s with status := js "pairing_code_ready", pairingCode := some code })
    (steps : List Step) :
    ∀ st : State, (∀ key s, st.activeSessions.get key = some s → P s) →
      ∀ key s, (run env st steps).activeSessions.get key = some s → P s := by
  induction steps with
  | nil => intro st hinv; exact hinv
  | cons x rest ih =>
    intro st hinv
    exact ih (step env st x) (step_keeps_sessions env P hfresh hupdate hpair st x hinv)

theorem reachable_sessions (env : Env) (P : Session → Prop)
    (hfresh : ∀ sock, P (Session.fresh sock))
    (hupdate : ∀ update s, P s → P ((s.afterQr env update).afterOpen update))
    (hpair : ∀ s code, code ≠ [] → P s →
      P { s with status := js "pairing_code_ready", pairingCode := some code })
    (st : State) (hreach : Reachable env st) :
    ∀ key s, st.activeSessions.get key = some s → P s := by
  obtain ⟨steps, rfl⟩ := hreach
  apply run_keeps_sessions env P hfresh hupdate hpair steps State.init
  intro key s hs
  simp [State.init, Registry.get] at hs

/-- The four statuses the service ever writes. -/
theorem reachable_status (env : Env) (st : State) (hreach : Reachable env st)
    (key : JSString) (s : Session) (hs : st.activeSessions.get key = some s) :
    s.status = js "initializing" ∨ s.status = js "qr_ready" ∨
      s.status = js "pairing_code_ready" ∨ s.status = js "connected" := by
  refine reachable_sessions env
    (fun s => s.status = js "initializing" ∨ s.status = js "qr_ready" ∨
      s.status = js "pairing_code_ready" ∨ s.status = js "connected")
    ?_ ?_ ?_ st hreach key s hs
  · intro sock
    exact Or.inl rfl
  · intro update s0 h0
    unfold Session.afterOpen Session.afterQr
    by_cases ho : update.connection = some (js "open")
    · simp [ho]
    · by_cases hq : truthy update.qr = true
      · simp [ho, hq]
      · simpa [ho, hq] using h0
  · intro s0 code _ _
    exact Or.inr (Or.inr (Or.inl rfl))

/-- In every reachable state a connected session has no stored QR. -/
theorem reachable_connected_no_qr (env : Env) (st : State) (hreach : Reachable env st)
    (key : JSString) (s : Session) (hs : st.activeSessions.get key = some s)
    (hconn : s.status = js "connected") : s.qr = none := by
  refine reachable_sessions env (fun s => s.status = js "connected" → s.qr = none)
    ?_ ?_ ?_ st hreach key s hs hconn
  · intro sock h
    exact absurd h (show ¬ (js "initializing" = js "connected") by decide)
  · intro update s0 h0
    unfold Session.afterOpen Session.afterQr
    by_cases ho : update.connection = some (js "open")
    · simp [ho]
    · by_cases hq : truthy update.qr = true
      · simp only [ho, hq, if_true, if_false]
        intro h
        exact absurd h (show ¬ (js "qr_ready" = js "connected") by decide)
      · simpa [ho, hq] using h0
  · intro s0 code _ _ h
    exact absurd h (show ¬ (js "pairing_code_ready" = js "connected") by decide)

/-- In every reachable state a stored QR and a stored pairing code are
non-empty strings, provided the encoder never returns the empty string. -/
theorem reachable_stored_nonempty (env : Env) (henc : ∀ payload, env.toDataURL payload ≠ [])
    (st : State) (hreach : Reachable env st)
    (key : JSString) (s : Session) (hs : st.activeSessions.get key = some s) :
    (∀ q, s.qr = some q → q ≠ []) ∧ (∀ c, s.pairingCode = some c → c ≠ []) := by
  refine reachable_sessions env
    (fun s => (∀ q, s.qr = some q → q ≠ []) ∧ (∀ c, s.pairingCode = some c → c ≠ []))
    ?_ ?_ ?_ st hreach key s hs
  · intro sock
    simp [Session.fresh]
  · intro update s0 h0
    unfold Session.afterOpen Session.afterQr
    by_cases ho : update.connection = some (js "open")
    · by_cases hq : truthy update.qr = true
      · simpa [ho, hq] using h0.2
      · simpa [ho, hq] using h0.2
    · by_cases hq : truthy update.qr = true
      · simp only [ho, hq, if_true, if_false]
        refine ⟨?_, h0.2⟩
        intro q hq2
        simp only [Option.some.injEq] at hq2
        exact hq2 ▸ henc _
      · simpa [ho, hq] using h0
  · intro s0 code hne h0
    refine ⟨h0.1, ?_⟩
    intro c hc
    simp only [Option.some.injEq] at hc
    exact hc ▸ hne

/-! ## `status` -/

theorem demoEnv_toDataURL_ne_nil (payload : JSString) : demoEnv.toDataURL payload ≠ [] := by
  intro h
  have hlen := congrArg List.length h
  simp [demoEnv, js] at hlen

/-- C3: `status` leaves the state unchanged and calls nothing.  It answers
`success = false` with status `not_found` exactly when the registry has no
entry for the id; for a registered id it answers `success = true` with the
stored status, `hasQR` true exactly when a (non-empty) QR string is stored,
`hasPairingCode` true exactly when a (non-empty) pairing code is stored, and
`connected` true exactly when the stored status is `connected`.  In every
reachable state (the encoder never returning the empty string) a stored QR or
code is never empty, so there `hasQR` / `hasPairingCode` are true exactly when
the property is set at all. -/
theorem status_reports_entry (env : Env) (st : State) (sessionId : JSString) :
    (getSessionStatus st sessionId).state = st ∧
    (getSessionStatus st sessionId).calls = [] ∧
    (((getSessionStatus st sessionId).response.success = false ∧
      (getSessionStatus st sessionId).response.status = some (js "not_found")) ↔
        st.activeSessions.get sessionId = none) ∧
    ((getSessionStatus st sessionId).response.success = false ↔
        st.activeSessions.get sessionId = none) ∧
    (∀ s, st.activeSessions.get sessionId = some s →
      (getSessionStatus st sessionId).response.success = true ∧
      (getSessionStatus st sessionId).response.status = some s.status ∧
      (∃ b, (getSessionStatus st sessionId).response.hasQR = some b ∧
        (b = true ↔ ∃ q, s.qr = some q ∧ q ≠ [])) ∧
      (∃ b, (getSessionStatus st sessionId).response.hasPairingCode = some b ∧
        (b = true ↔ ∃ c, s.pairingCode = some c ∧ c ≠ [])) ∧
      (∃ b, (getSessionStatus st sessionId).response.connected = some b ∧
        (b = true ↔ s.status = js "connected"))) ∧
    ((∀ payload, env.toDataURL payload ≠ []) → Reachable env st →
      ∀ s, st.activeSessions.get sessionId = some s →
        ((getSessionStatus st sessionId).response.hasQR = some true ↔ s.qr ≠ none) ∧
        ((getSessionStatus st sessionId).response.hasPairingCode = some true ↔
          s.pairingCode ≠ none)) := by
  have htruthy : ∀ v : Option JSString, truthy v = true ↔ ∃ q, v = some q ∧ q ≠ [] := by
    intro v
    cases v with
    | none => simp [truthy]
    | some q => cases q <;> simp [truthy]
  have hstate : (getSessionStatus st sessionId).state = st ∧
      (getSessionStatus st sessionId).calls = [] := by
    unfold getSessionStatus
    cases st.activeSessions.get sessionId <;> exact ⟨rfl, rfl⟩
  refine ⟨hstate.1, hstate.2, ?_, ?_, ?_, ?_⟩
  · cases hget : st.activeSessions.get sessionId <;> simp [getSessionStatus, hget]
  · cases hget : st.activeSessions.get sessionId <;> simp [getSessionStatus, hget]
  · intro s hget
    refine ⟨by simp [getSessionStatus, hget], by simp [getSessionStatus, hget],
      ⟨truthy s.qr, by simp [getSessionStatus, hget], htruthy _⟩,
      ⟨truthy s.pairingCode, by simp [getSessionStatus, hget], htruthy _⟩,
      ⟨decide (s.status = js "connected"), by simp [getSessionStatus, hget], by simp⟩⟩
  · intro henc hreach s hget
    obtain ⟨hq, hc⟩ := reachable_stored_nonempty env henc st hreach sessionId s hget
    have e1 : (getSessionStatus st sessionId).response.hasQR = some (truthy s.qr) := by
      simp [getSessionStatus, hget]
    have e2 : (getSessionStatus st sessionId).response.hasPairingCode
        = some (truthy s.pairingCode) := by
      simp [getSessionStatus, hget]
    rw [e1, e2]
    constructor
    · rw [Option.some.injEq, htruthy]
      constructor
      · rintro ⟨q, hq1, -⟩
        simp [hq1]
      · intro hne
        cases hqr : s.qr with
        | none => exact absurd hqr hne
        | some q => exact ⟨q, rfl, hq q hqr⟩
    · rw [Option.some.injEq, htruthy]
      constructor
      · rintro ⟨c, hc1, -⟩
        simp [hc1]
      · intro hne
        cases hpc : s.pairingCode with
        | none => exact absurd hpc hne
        | some c => exact ⟨c, rfl, hc c hpc⟩

theorem status_reports_entry_witness :
    (run demoEnv State.init [Step.api (Call.create (js "s1")),
        Step.event (Event.connectionUpdate 0 qrUpdate)]).activeSessions.get (js "s1")
      = some { sock := 0, qr := some (js "data:image/png;base64,payload"),
               status := js "qr_ready", pairingCode := none } ∧
    (getSessionStatus (run demoEnv State.init [Step.api (Call.create (js "s1")),
        Step.event (Event.connectionUpdate 0 qrUpdate)]) (js "s1")).response.success = true ∧
    (getSessionStatus (run demoEnv State.init [Step.api (Call.create (js "s1")),
        Step.event (Event.connectionUpdate 0 qrUpdate)]) (js "s1")).response.status
      = some (js "qr_ready") ∧
    ((getSessionStatus (run demoEnv State.init [Step.api (Call.create (js "s1")),
        Step.event (Event.connectionUpdate 0 qrUpdate)]) (js "s1")).response.hasQR = some true ↔
      (some (js "data:image/png;base64,payload") : Option JSString) ≠ none) :=
  have hget : (run demoEnv State.init [Step.api (Call.create (js "s1")),
        Step.event (Event.connectionUpdate 0 qrUpdate)]).activeSessions.get (js "s1")
      = some { sock := 0, qr := some (js "data:image/png;base64,payload"),
               status := js "qr_ready", pairingCode := none } := by decide
  have h := status_reports_entry demoEnv (run demoEnv State.init
    [Step.api (Call.create (js "s1")), Step.event (Event.connectionUpdate 0 qrUpdate)])
    (js "s1")
  ⟨hget, (h.2.2.2.2.1 _ hget).1, (h.2.2.2.2.1 _ hget).2.1,
    (h.2.2.2.2.2 demoEnv_toDataURL_ne_nil ⟨_, rfl⟩ _ hget).1⟩

/-! ## `status` after `create` -/

theorem afterUpdate_status (env : Env) (update : Update) (s : Session)
    (h : createPhase (some s.status)) :
    createPhase (some ((s.afterQr env update).afterOpen update).status) := by
  unfold Session.afterOpen Session.afterQr
  by_cases ho : update.connection = some (js "open")
  · simp [ho, createPhase]
  · by_cases hq : truthy update.qr = true
    · simp [ho, hq, createPhase]
    · simpa [ho, hq] using h

/-- Events keep the status of a registered session among `initializing`,
`qr_ready`, `connected` once it is there. -/
theorem deliver_keeps_createPhase (env : Env) (st : State) (e : Event) (key : JSString)
    (h : ∀ s, st.activeSessions.get key = some s → createPhase (some s.status)) :
    ∀ s, (deliver env st e).activeSessions.get key = some s → createPhase (some s.status) := by
  intro s hs
  rcases deliver_get env st e key with h1 | ⟨sock, update, -, -, h1⟩ | ⟨-, -, h1⟩
  · rw [h1] at hs
    exact h s hs
  · rw [h1] at hs
    by_cases hl : update.isLoggedOutClose env = true
    · simp [hl] at hs
    · rw [if_neg hl] at hs
      cases hget : st.activeSessions.get key with
      | none => simp [hget] at hs
      | some s0 =>
        simp only [hget, Option.map_some', Option.some.injEq] at hs
        exact hs ▸ afterUpdate_status env update s0 (h s0 hget)
  · rw [h1] at hs
    rw [← Option.some.inj hs]
    exact Or.inl rfl

/-- Only a close with reason "logged out" makes an event remove an entry. -/
theorem deliver_keeps_entry (env : Env) (st : State) (e : Event) (key : JSString)
    (hnot : ∀ sock update, e = Event.connectionUpdate sock update →
      update.isLoggedOutClose env = false)
    (h : st.activeSessions.get key ≠ none) :
    (deliver env st e).activeSessions.get key ≠ none := by
  rcases deliver_get env st e key with h1 | ⟨sock, update, he, -, h1⟩ | ⟨-, -, h1⟩
  · rw [h1]
    exact h
  · rw [h1, hnot sock update he]
    cases hget : st.activeSessions.get key with
    | none => exact absurd hget h
    | some s0 => simp
  · rw [h1]
    simp

theorem events_keep_createPhase (env : Env) (key : JSString) (events : List Event) :
    ∀ st : State, (∀ s, st.activeSessions.get key = some s → createPhase (some s.status)) →
      ∀ s, (events.foldl (deliver env) st).activeSessions.get key = some s →
        createPhase (some s.status) := by
  induction events with
  | nil => intro st h; exact h
  | cons e rest ih =>
    intro st h
    exact ih (deliver env st e) (deliver_keeps_createPhase env st e key h)

theorem events_keep_entry (env : Env) (key : JSString) (events : List Event) :
    ∀ st : State,
      (∀ e ∈ events, ∀ sock update, e = Event.connectionUpdate sock update →
        update.isLoggedOutClose env = false) →
      st.activeSessions.get key ≠ none →
      (events.foldl (deliver env) st).activeSessions.get key ≠ none := by
  induction events with
  | nil => intro st _ h; exact h
  | cons e rest ih =>
    intro st hnot h
    exact ih (deliver env st e)
      (fun e2 he2 => hnot e2 (List.mem_cons_of_mem _ he2))
      (deliver_keeps_entry env st e key (hnot e (List.mem_cons_self _ _)) h)

theorem getSessionStatus_none (st : State) (sessionId : JSString)
    (h : st.activeSessions.get sessionId = none) :
    (getSessionStatus st sessionId).response.success = false ∧
    (getSessionStatus st sessionId).response.status = some (js "not_found") := by
  unfold getSessionStatus
  rw [h]
  exact ⟨rfl, rfl⟩

theorem getSessionStatus_some (st : State) (sessionId : JSString) (s : Session)
    (h : st.activeSessions.get sessionId = some s) :
    (getSessionStatus st sessionId).response.success = true ∧
    (getSessionStatus st sessionId).response.status = some s.status ∧
    (getSessionStatus st sessionId).response.connected
      = some (decide (s.status = js "connected")) ∧
    (getSessionStatus st sessionId).response.hasQR = some (truthy s.qr) := by
  unfold getSessionStatus
  rw [h]
  exact ⟨rfl, rfl, rfl, rfl⟩

theorem statusAfterCreate_eq (env : Env) (st : State) (sessionId : JSString)
    (during after : List Event) :
    statusAfterCreate env st sessionId during after
      = (getSessionStatus
          ((during ++ after).foldl (deliver env) (createSessionBegin st sessionId))
          sessionId).response := by
  simp [statusAfterCreate, createSession, List.foldl_append]

/-- C8, refuted as stated: session `s1` is created on a fresh process and,
during the wait of the `create`, its client reports a close with reason
"logged out"; the `status` call made after the `create` has returned answers
`success = false` with status `not_found`, which is none of `initializing`,
`qr_ready`, `connected`. -/
theorem status_after_create_not_found :
    (statusAfterCreate demoEnv State.init (js "s1")
      [Event.connectionUpdate 0 loggedOutClose] []).status = some (js "not_found") ∧
    (statusAfterCreate demoEnv State.init (js "s1")
      [Event.connectionUpdate 0 loggedOutClose] []).success = false ∧
    ¬ createPhase (statusAfterCreate demoEnv State.init (js "s1")
      [Event.connectionUpdate 0 loggedOutClose] []).status := by
  have h : (statusAfterCreate demoEnv State.init (js "s1")
      [Event.connectionUpdate 0 loggedOutClose] []).status = some (js "not_found") := by
    decide
  exact ⟨h, by decide, by decide⟩

/-- C8, amended: after a `create` for an id, whatever events (connection
updates of any client, reconnect timers) are delivered during and after it, a
`status` call for the id reports either `success = true` with a status among
`initializing`, `qr_ready`, `connected`, or `success = false` with status
`not_found`; and it is the former whenever none of the events is a close with
reason "logged out". -/
theorem status_after_create_range (env : Env) (st : State) (sessionId : JSString)
    (during after : List Event) :
    (((statusAfterCreate env st sessionId during after).success = true ∧
        createPhase (statusAfterCreate env st sessionId during after).status) ∨
      ((statusAfterCreate env st sessionId during after).success = false ∧
        (statusAfterCreate env st sessionId during after).status = some (js "not_found"))) ∧
    ((∀ e ∈ during ++ after, ∀ sock update, e = Event.connectionUpdate sock update →
        update.isLoggedOutClose env = false) →
      (statusAfterCreate env st sessionId during after).success = true ∧
        createPhase (statusAfterCreate env st sessionId during after).status) := by
  rw [statusAfterCreate_eq]
  have hbegin : ∀ s, (createSessionBegin st sessionId).activeSessions.get sessionId = some s →
      createPhase (some s.status) := by
    intro s hs
    rw [createSessionBegin_get] at hs
    simp only [if_true, Option.some.injEq] at hs
    rw [← hs]
    exact Or.inl rfl
  have hrange := events_keep_createPhase env sessionId (during ++ after)
    (createSessionBegin st sessionId) hbegin
  have hsome : ∀ s,
      ((during ++ after).foldl (deliver env) (createSessionBegin st sessionId)).activeSessions.get
        sessionId = some s →
      (getSessionStatus ((during ++ after).foldl (deliver env)
        (createSessionBegin st sessionId)) sessionId).response.success = true ∧
      createPhase (getSessionStatus ((during ++ after).foldl (deliver env)
        (createSessionBegin st sessionId)) sessionId).response.status := by
    intro s hs
    have hr := hrange s hs
    obtain ⟨h1, h2, -, -⟩ := getSessionStatus_some _ sessionId s hs
    rw [h2]
    exact ⟨h1, hr⟩
  constructor
  · cases hget : ((during ++ after).foldl (deliver env)
        (createSessionBegin st sessionId)).activeSessions.get sessionId with
    | none => exact Or.inr (getSessionStatus_none _ sessionId hget)
    | some s => exact Or.inl (hsome s hget)
  · intro hnot
    have hentry := events_keep_entry env sessionId (during ++ after)
      (createSessionBegin st sessionId) hnot
      (by rw [createSessionBegin_get]; simp)
    cases hget : ((during ++ after).foldl (deliver env)
        (createSessionBegin st sessionId)).activeSessions.get sessionId with
    | none => exact absurd hget hentry
    | some s => exact hsome s hget

theorem status_after_create_range_witness :
    (∀ e ∈ [Event.connectionUpdate 0 qrUpdate] ++ [Event.connectionUpdate 0 openUpdate],
      ∀ sock update, e = Event.connectionUpdate sock update →
        update.isLoggedOutClose demoEnv = false) ∧
    (statusAfterCreate demoEnv State.init (js "s1") [Event.connectionUpdate 0 qrUpdate]
      [Event.connectionUpdate 0 openUpdate]).success = true ∧
    createPhase (statusAfterCreate demoEnv State.init (js "s1")
      [Event.connectionUpdate 0 qrUpdate] [Event.connectionUpdate 0 openUpdate]).status ∧
    (statusAfterCreate demoEnv State.init (js "s1") [Event.connectionUpdate 0 qrUpdate]
      [Event.connectionUpdate 0 openUpdate]).status = some (js "connected") :=
  have hnot : ∀ e ∈ [Event.connectionUpdate 0 qrUpdate] ++ [Event.connectionUpdate 0 openUpdate],
      ∀ sock update, e = Event.connectionUpdate sock update →
        update.isLoggedOutClose demoEnv = false := by
    intro e he sock update heq
    simp only [List.cons_append, List.nil_append, List.mem_cons, List.mem_singleton,
      List.not_mem_nil, or_false] at he
    rcases he with he | he
    · rw [he] at heq
      injection heq with _ hu
      rw [← hu]
      decide
    · rw [he] at heq
      injection heq with _ hu
      rw [← hu]
      decide
  have h := (status_after_create_range demoEnv State.init (js "s1")
    [Event.connectionUpdate 0 qrUpdate] [Event.connectionUpdate 0 openUpdate]).2 hnot
  ⟨hnot, h.1, h.2, by decide⟩

/-! ## The order of the statuses -/

theorem requestPairingCode_timers (env : Env) (st : State) (sessionId : JSString)
    (phoneNumber : Option JSString) (reply : Except JSString JSString) :
    (requestPairingCode env st sessionId phoneNumber reply).state.timers = st.timers := by
  cases phoneNumber with
  | none => simp [requestPairingCode, truthy]
  | some p =>
    by_cases hlen : (replaceNonDigits p).length < 10
    · rw [(short_phone_rejected env st sessionId p reply hlen).2.2.2]
    · have hp : truthy (some p) = true := by
        cases p with
        | nil => simp [replaceNonDigits] at hlen
        | cons u rest => rfl
      cases hget : st.activeSessions.get sessionId <;> cases reply with
      | error msg => simp [requestPairingCode, hp, hlen, hget]
      | ok code => cases hm : jsMatch code <;> simp [requestPairingCode, hp, hlen, hget, hm]

/-- A reconnect timer for an id is pending only if it was pending before the
step or the step is a close, with a reason other than "logged out", delivered
to a listener of that id. -/
theorem timer_set_only_by_close (env : Env) (st : State) (x : Step) (sessionId : JSString)
    (h : sessionId ∈ (step env st x).timers) :
    sessionId ∈ st.timers ∨
    ∃ sock update, x = Step.event (Event.connectionUpdate sock update) ∧
      st.sockets[sock]? = some (some sessionId) ∧
      update.connection = some (js "close") ∧ update.statusCode ≠ some env.loggedOut := by
  cases x with
  | api call =>
    left
    cases call with
    | create id2 => exact h
    | pair id2 phoneNumber reply =>
      have ht := requestPairingCode_timers env st id2 phoneNumber reply
      simp only [step] at h
      rw [ht] at h
      exact h
    | status id2 =>
      have ht : (getSessionStatus st id2).state = st := by
        unfold getSessionStatus
        cases st.activeSessions.get id2 <;> rfl
      simp only [step] at h
      rw [ht] at h
      exact h
    | destroy id2 logout => exact h
  | event e =>
    cases e with
    | connectionUpdate sock update =>
      simp only [step, deliver] at h
      cases hs : st.sockets[sock]? with
      | none =>
        rw [hs] at h
        exact Or.inl h
      | some listener =>
        cases listener with
        | none =>
          rw [hs] at h
          exact Or.inl h
        | some id2 =>
          rw [hs] at h
          have hq : (onQr env st id2 update).timers = st.timers := by
            unfold onQr
            split
            · cases st.activeSessions.get id2 <;> rfl
            · rfl
          have ho : (onOpen (onQr env st id2 update) id2 update).timers = st.timers := by
            rw [← hq]
            unfold onOpen
            split
            · cases (onQr env st id2 update).activeSessions.get id2 <;> rfl
            · rfl
          simp only [onConnectionUpdate, onClose] at h
          by_cases hc : update.connection = some (js "close")
          · by_cases hl : update.statusCode = some env.loggedOut
            · simp only [hc, hl, if_true, ne_eq, not_true_eq_false, if_false] at h
              rw [ho] at h
              exact Or.inl h
            · simp only [hc, if_true, ne_eq, hl, not_false_eq_true] at h
              rw [ho] at h
              rcases List.mem_append.mp h with h | h
              · exact Or.inl h
              · right
                have hid : sessionId = id2 := by simpa using h
                subst hid
                exact ⟨sock, update, rfl, hs, hc, hl⟩
          · simp only [hc, if_false] at h
            rw [ho] at h
            exact Or.inl h
    | reconnectTimer id2 =>
      left
      simp only [step, deliver] at h
      by_cases hmem : id2 ∈ st.timers
      · simp only [hmem, if_true, createSessionBegin] at h
        exact List.mem_of_mem_erase h
      · simp only [hmem, if_false] at h
        exact h


theorem movesForward_refl (status : JSString) : movesForward status status = true := by
  simp [movesForward]

theorem movesForward_connected (status : JSString)
    (h : status = js "initializing" ∨ status = js "qr_ready" ∨
      status = js "pairing_code_ready" ∨ status = js "connected") :
    movesForward status (js "connected") = true := by
  rcases h with h | h | h | h <;> rw [h] <;> decide

/-- C9, refuted as stated: session `s1` is created and its client reports an
open connection, so its status is `connected`; a `pair` request (an API call,
not a reconnect) that the client answers then sets the status to
`pairing_code_ready`, which is not a forward move from `connected`. -/
theorem status_moves_back_on_pair :
    statusOf (run demoEnv State.init connectedRun) (js "s1") = some (js "connected") ∧
    pairStep = Step.api (Call.pair (js "s1") (some (js "12345678901"))
      (Except.ok (js "ABCD1234"))) ∧
    statusOf (step demoEnv (run demoEnv State.init connectedRun) pairStep) (js "s1")
      = some (js "pairing_code_ready") ∧
    movesForward (js "connected") (js "pairing_code_ready") = false := by
  refine ⟨by decide, rfl, by decide, by decide⟩

/-- C9, amended: in every sequence of API calls and client events, a step that
takes the status of a registered session from `s` to `s2` either moves forward
along `initializing → qr_ready → connected` or
`initializing → pairing_code_ready → connected` (or stays), or is one of the
writes the service makes whatever the status was: the reset to `initializing`
by a `create` call or by a reconnect timer for the id, the set to `qr_ready`
by a notification carrying a QR, the set to `pairing_code_ready` by a
successful `pair` for the id. -/
theorem status_step_forward_or_write (env : Env) (steps : List Step) (x : Step)
    (sessionId s s2 : JSString)
    (hbefore : statusOf (run env State.init steps) sessionId = some s)
    (hafter : statusOf (step env (run env State.init steps) x) sessionId = some s2) :
    movesForward s s2 = true ∨
    ((x = Step.api (Call.create sessionId) ∨
        (x = Step.event (Event.reconnectTimer sessionId) ∧
          sessionId ∈ (run env State.init steps).timers)) ∧
      s2 = js "initializing") ∨
    ((∃ sock update, x = Step.event (Event.connectionUpdate sock update) ∧
        truthy update.qr = true) ∧ s2 = js "qr_ready") ∨
    ((∃ phoneNumber code,
        x = Step.api (Call.pair sessionId phoneNumber (Except.ok code))) ∧
      s2 = js "pairing_code_ready") := by
  have hreach : Reachable env (run env State.init steps) := ⟨steps, rfl⟩
  generalize run env State.init steps = st at hbefore hafter hreach ⊢
  unfold statusOf at hbefore hafter
  cases hget : st.activeSessions.get sessionId with
  | none => simp [hget] at hbefore
  | some s0 =>
    simp only [hget, Option.map_some', Option.some.injEq] at hbefore
    have hfour := reachable_status env st hreach sessionId s0 hget
    rw [hbefore] at hfour
    have hsame : ∀ st2 : State, st2.activeSessions.get sessionId = st.activeSessions.get sessionId →
        Option.map (fun s => s.status) (st2.activeSessions.get sessionId) = some s2 →
        movesForward s s2 = true := by
      intro st2 h1 h2
      rw [h1, hget] at h2
      simp only [Option.map_some', Option.some.injEq] at h2
      rw [← h2, hbefore]
      exact movesForward_refl s
    cases x with
    | api call =>
      cases call with
      | create id2 =>
        by_cases h : sessionId = id2
        · subst h
          right; left
          simp only [step] at hafter
          rw [createSessionBegin_get] at hafter
          simp only [if_true, Option.map_some', Option.some.injEq] at hafter
          exact ⟨Or.inl rfl, hafter.symm⟩
        · left
          apply hsame _ _ hafter
          simp only [step]
          rw [createSessionBegin_get]
          simp [h]
      | pair id2 phoneNumber reply =>
        obtain ⟨hother, hself⟩ := requestPairingCode_get env st id2 phoneNumber reply
        by_cases h : sessionId = id2
        · subst h
          simp only [step] at hafter
          rcases hself with h1 | ⟨h1, -⟩ | ⟨base, code, -, -, hreply, h1⟩
          · left
            exact hsame _ h1 hafter
          · rw [hget] at h1
            exact absurd h1 (by simp)
          · right; right; right
            rw [h1] at hafter
            simp only [Option.map_some', Option.some.injEq] at hafter
            exact ⟨⟨phoneNumber, code, by rw [hreply]⟩, hafter.symm⟩
        · left
          exact hsame _ (hother sessionId h) hafter
      | status id2 =>
        left
        apply hsame _ _ hafter
        simp only [step, getSessionStatus]
        cases st.activeSessions.get id2 <;> rfl
      | destroy id2 logout =>
        by_cases h : sessionId = id2
        · subst h
          simp only [step, destroySession] at hafter
          rw [Registry.get_delete_same] at hafter
          simp at hafter
        · left
          apply hsame _ _ hafter
          simp only [step, destroySession]
          exact Registry.get_delete_other _ _ _ h
    | event e =>
      simp only [step] at hafter
      rcases deliver_get env st e sessionId with h1 | ⟨sock, update, he, -, h1⟩ | ⟨he, hmem, h1⟩
      · left
        exact hsame _ h1 hafter
      · rw [h1, hget] at hafter
        by_cases hl : update.isLoggedOutClose env = true
        · simp [hl] at hafter
        · rw [if_neg hl] at hafter
          simp only [Option.map_some', Option.some.injEq] at hafter
          unfold Session.afterOpen Session.afterQr at hafter
          by_cases ho : update.connection = some (js "open")
          · left
            simp only [ho, if_true] at hafter
            rw [← hafter]
            exact movesForward_connected s hfour
          · by_cases hq : truthy update.qr = true
            · right; right; left
              simp only [ho, hq, if_true, if_false] at hafter
              exact ⟨⟨sock, update, by rw [he], hq⟩, hafter.symm⟩
            · left
              have hq2 : truthy update.qr = false := by simpa using hq
              rw [hq2] at hafter
              simp only [ho, if_false, Bool.false_eq_true] at hafter
              rw [← hafter, hbefore]
              exact movesForward_refl s
      · right; left
        rw [h1] at hafter
        simp only [Option.map_some', Option.some.injEq] at hafter
        exact ⟨Or.inr ⟨by rw [he], hmem⟩, hafter.symm⟩

theorem status_step_forward_or_write_witness :
    statusOf (run demoEnv State.init connectedRun) (js "s1") = some (js "connected") ∧
    statusOf (step demoEnv (run demoEnv State.init connectedRun) pairStep) (js "s1")
      = some (js "pairing_code_ready") ∧
    (movesForward (js "connected") (js "pairing_code_ready") = true ∨
    ((pairStep = Step.api (Call.create (js "s1")) ∨
        (pairStep = Step.event (Event.reconnectTimer (js "s1")) ∧
          js "s1" ∈ (run demoEnv State.init connectedRun).timers)) ∧
      js "pairing_code_ready" = js "initializing") ∨
    ((∃ sock update, pairStep = Step.event (Event.connectionUpdate sock update) ∧
        truthy update.qr = true) ∧ js "pairing_code_ready" = js "qr_ready") ∨
    ((∃ phoneNumber code,
        pairStep = Step.api (Call.pair (js "s1") phoneNumber (Except.ok code))) ∧
      js "pairing_code_ready" = js "pairing_code_ready")) :=
  ⟨by decide, by decide,
   status_step_forward_or_write demoEnv connectedRun pairStep (js "s1") (js "connected")
     (js "pairing_code_ready") (by decide) (by decide)⟩

/-! ## The open connection -/

/-- Where the client that reports an open connection has the listener of
`createSession` and the session is registered, the status becomes `connected`
and the stored QR is cleared. -/
theorem open_report_sets_connected (env : Env) (st : State) (sock : Nat)
    (sessionId : JSString) (update : Update) (s : Session)
    (hsock : st.sockets[sock]? = some (some sessionId))
    (hget : st.activeSessions.get sessionId = some s)
    (hopen : update.connection = some (js "open")) :
    ∃ s2, (deliver env st (Event.connectionUpdate sock update)).activeSessions.get sessionId
        = some s2 ∧ s2.status = js "connected" ∧ s2.qr = none ∧
      s2.pairingCode = s.pairingCode ∧ s2.sock = s.sock := by
  have hl : update.isLoggedOutClose env = false := by
    have hne : (some (js "open") : Option JSString) ≠ some (js "close") := by decide
    simp [Update.isLoggedOutClose, hopen, hne]
  refine ⟨(s.afterQr env update).afterOpen update, ?_, ?_⟩
  · simp only [deliver, hsock]
    rw [onConnectionUpdate_get]
    simp [hl, hget]
  · unfold Session.afterOpen Session.afterQr
    by_cases hq : truthy update.qr = true <;> simp [hopen, hq]

/-- C10, the code at the failing input: `pair` for the unknown id `s1` on a
fresh process registers a session whose client (handle 0) has no
`connection.update` listener; when that client reports an open connection
nothing changes, the status stays `pairing_code_ready` and `status` answers
`connected = false`.  After `create` for the same id the same report sets the
status to `connected`. -/
theorem open_report_lost_after_pair_alone :
    pairedOnly.sockets = [none] ∧
    pairedOnly.activeSessions.get (js "s1")
      = some { sock := 0, qr := none, status := js "pairing_code_ready",
               pairingCode := some (js "ABCD1234") } ∧
    deliver demoEnv pairedOnly (Event.connectionUpdate 0 openUpdate) = pairedOnly ∧
    (getSessionStatus (deliver demoEnv pairedOnly (Event.connectionUpdate 0 openUpdate))
      (js "s1")).response.status = some (js "pairing_code_ready") ∧
    (getSessionStatus (deliver demoEnv pairedOnly (Event.connectionUpdate 0 openUpdate))
      (js "s1")).response.connected = some false ∧
    statusOf (deliver demoEnv (createSessionBegin State.init (js "s1"))
      (Event.connectionUpdate 0 openUpdate)) (js "s1") = some (js "connected") := by
  refine ⟨by decide, by decide, by decide, by decide, by decide, by decide⟩

/-! ## Identity of session objects -/

theorem onConnectionUpdate_sockets (env : Env) (st : State) (sessionId : JSString)
    (update : Update) : (onConnectionUpdate env st sessionId update).sockets = st.sockets := by
  have hq : (onQr env st sessionId update).sockets = st.sockets := by
    unfold onQr
    split
    · cases st.activeSessions.get sessionId <;> rfl
    · rfl
  have ho : (onOpen (onQr env st sessionId update) sessionId update).sockets = st.sockets := by
    rw [← hq]
    unfold onOpen
    split
    · cases (onQr env st sessionId update).activeSessions.get sessionId <;> rfl
    · rfl
  rw [← ho]
  unfold onConnectionUpdate onClose
  split
  · split <;> rfl
  · rfl

/-- The handle of a registered session belongs to a client made before: a step
keeps this, so a client made later has a handle no registered session has. -/
theorem step_keeps_sock_lt (env : Env) (st : State) (x : Step)
    (hinv : ∀ key s, st.activeSessions.get key = some s → s.sock < st.sockets.length) :
    ∀ key s, (step env st x).activeSessions.get key = some s →
      s.sock < (step env st x).sockets.length := by
  intro key s hs
  cases x with
  | api call =>
    cases call with
    | create sessionId =>
      simp only [step] at hs ⊢
      rw [createSessionBegin_get] at hs
      have hlen : (createSessionBegin st sessionId).sockets.length = st.sockets.length + 1 := by
        simp [createSessionBegin]
      rw [hlen]
      by_cases h : key = sessionId
      · simp only [h, if_true, Option.some.injEq] at hs
        rw [← hs]
        exact Nat.lt_succ_self _
      · simp only [h, if_false] at hs
        exact Nat.lt_succ_of_lt (hinv key s hs)
    | pair sessionId phoneNumber reply =>
      simp only [step] at hs ⊢
      obtain ⟨hother, hself⟩ := requestPairingCode_get env st sessionId phoneNumber reply
      have hmono : st.sockets.length ≤
          (requestPairingCode env st sessionId phoneNumber reply).state.sockets.length ∧
          (st.activeSessions.get sessionId = none →
            (requestPairingCode env st sessionId phoneNumber reply).state = st ∨
            (requestPairingCode env st sessionId phoneNumber reply).state.sockets.length
              = st.sockets.length + 1) := by
        cases phoneNumber with
        | none => simp [requestPairingCode, truthy]
        | some p =>
          by_cases hlen : (replaceNonDigits p).length < 10
          · rw [(short_phone_rejected env st sessionId p reply hlen).2.2.2]
            simp
          · have hp : truthy (some p) = true := by
              cases p with
              | nil => simp [replaceNonDigits] at hlen
              | cons u rest => rfl
            cases hget : st.activeSessions.get sessionId <;> cases reply with
            | error msg => simp [requestPairingCode, hp, hlen, hget]
            | ok code =>
              cases hm : jsMatch code <;> simp [requestPairingCode, hp, hlen, hget, hm]
      by_cases h : key = sessionId
      · subst h
        rcases hself with h1 | ⟨hnone, h1⟩ | ⟨base, code, hbase, -, -, h1⟩
        · rw [h1] at hs
          exact Nat.lt_of_lt_of_le (hinv key s hs) hmono.1
        · rw [h1] at hs
          rcases hmono.2 hnone with hsame | hgrow
          · rw [hsame, hnone] at h1
            exact absurd h1 (by simp)
          · rw [hgrow, ← Option.some.inj hs]
            exact Nat.lt_succ_self _
        · rw [h1] at hs
          rw [← Option.some.inj hs]
          rcases hbase with hb | ⟨hnone, hb⟩
          · exact Nat.lt_of_lt_of_le (hinv key base hb) hmono.1
          · rcases hmono.2 hnone with hsame | hgrow
            · rw [hsame, hnone] at h1
              exact absurd h1 (by simp)
            · rw [hgrow, hb]
              exact Nat.lt_succ_self _
      · rw [hother key h] at hs
        exact Nat.lt_of_lt_of_le (hinv key s hs) hmono.1
    | status sessionId =>
      have hst : step env st (Step.api (Call.status sessionId)) = st := by
        simp only [step, getSessionStatus]
        cases st.activeSessions.get sessionId <;> rfl
      rw [hst] at hs ⊢
      exact hinv key s hs
    | destroy sessionId logout =>
      simp only [step, destroySession] at hs ⊢
      by_cases h : key = sessionId
      · subst h
        rw [Registry.get_delete_same] at hs
        exact absurd hs (by simp)
      · rw [Registry.get_delete_other _ _ _ h] at hs
        exact hinv key s hs
  | event e =>
    simp only [step] at hs ⊢
    cases e with
    | connectionUpdate sock update =>
      have hlen : (deliver env st (Event.connectionUpdate sock update)).sockets = st.sockets := by
        simp only [deliver]
        cases hsock : st.sockets[sock]? with
        | none => rfl
        | some listener =>
          cases listener with
          | none => rfl
          | some sessionId => exact onConnectionUpdate_sockets env st sessionId update
      rw [hlen]
      rcases deliver_get env st (Event.connectionUpdate sock update) key with
        h1 | ⟨sock2, update2, -, -, h1⟩ | ⟨he, -, -⟩
      · rw [h1] at hs
        exact hinv key s hs
      · rw [h1] at hs
        by_cases hl : update2.isLoggedOutClose env = true
        · simp [hl] at hs
        · rw [if_neg hl] at hs
          cases hget : st.activeSessions.get key with
          | none => simp [hget] at hs
          | some s0 =>
            simp only [hget, Option.map_some', Option.some.injEq] at hs
            have hsame : s.sock = s0.sock := by
              rw [← hs]
              unfold Session.afterOpen Session.afterQr
              split <;> split <;> rfl
            rw [hsame]
            exact hinv key s0 hget
      · exact absurd he (by simp)
    | reconnectTimer sessionId =>
      by_cases hmem : sessionId ∈ st.timers
      · simp only [deliver, hmem, if_true] at hs ⊢
        rw [createSessionBegin_get] at hs
        have hlen : (createSessionBegin { st with timers := st.timers.erase sessionId }
            sessionId).sockets.length = st.sockets.length + 1 := by
          simp [createSessionBegin]
        rw [hlen]
        by_cases h : key = sessionId
        · simp only [h, if_true, Option.some.injEq] at hs
          rw [← hs]
          exact Nat.lt_succ_self _
        · simp only [h, if_false] at hs
          exact Nat.lt_succ_of_lt (hinv key s hs)
      · simp only [deliver, hmem, if_false] at hs ⊢
        exact hinv key s hs

/-- In every reachable state the handle of a registered session is the handle
of a client made before, so the client made next is new to the registry. -/
theorem reachable_sock_lt (env : Env) (st : State) (hreach : Reachable env st) :
    ∀ key s, st.activeSessions.get key = some s → s.sock < st.sockets.length := by
  obtain ⟨steps, rfl⟩ := hreach
  have hrun : ∀ (l : List Step) (st0 : State),
      (∀ key s, st0.activeSessions.get key = some s → s.sock < st0.sockets.length) →
      ∀ key s, (run env st0 l).activeSessions.get key = some s →
        s.sock < (run env st0 l).sockets.length := by
    intro l
    induction l with
    | nil => intro st0 h0; exact h0
    | cons x rest ih =>
      intro st0 h0
      exact ih (step env st0 x) (step_keeps_sock_lt env st0 x h0)
  apply hrun steps State.init
  intro key s hs
  simp [State.init, Registry.get] at hs

end RedXPair
